import Mathlib

/-!
Shallow embedding of `src/dqc_validation.py`, the XBRL US Data Quality
Committee rule-evaluation engine (namespace resolution, temporal utilities,
decimals-aware numeric comparison, fact matching, member-exclusion predicate
trees, the seven DQC rule families, and the error-reporting layer).

Modelling conventions:
* Python `datetime` values are total microseconds on the proleptic Gregorian
  timeline (`ordinal * usecPerDay + microseconds_within_day`, day 1 being
  0001-01-01), so datetime subtraction, ordering and `timedelta.days`
  (floor division) are integer operations.
* Python `decimal.Decimal` fact values are exact mantissa-times-power-of-ten
  numbers; they are modelled by the structure `Dec` (integer mantissa `m`,
  integer exponent `e`, denoting `m * 10 ^ e`) with exact integer
  arithmetic, and `Dec.toRat` gives the rational value it denotes.
  `decimals` attributes are `Option Int` with `none` standing for `INF`.
* The external JSON rule-data tables (`dqc_0006_period_focus_durations`,
  `dqc_0009_facts`, `dqc_0015_facts`, `dqc_0015_member_exclusions`) are pure
  data inputs of the engine and appear as explicit parameters.
* Python dicts used only through `get` are association lists where an update
  prepends (lookup returns the most recent binding, like a dict).
* The message-template JSON and the rendering of `xbrl.Error.Param` payloads
  are external data; a produced diagnostic is modelled by its rule id and the
  ordered list of facts it references.
-/

namespace Dqc

/-- Encoding of a Python `datetime`: total microseconds, computed as
`toordinal() * usecPerDay + microseconds_within_day`. -/
abbrev PyDatetime := Int

/-- Microseconds per day (Python `timedelta(days=1)` in microseconds). -/
def usecPerDay : Int := 86400000000

/-- `datetime.datetime.max` is 9999-12-31 23:59:59.999999 and
`date(9999, 12, 31).toordinal() = 3652059`. -/
def datetime_max : PyDatetime := 3652059 * usecPerDay + 86399999999

/-- `sys.maxsize` on a 64-bit CPython build. -/
def sys_maxsize : Int := 9223372036854775807

/-- `10 ^ n` as an integer, by structural recursion (kernel friendly). -/
def ipow10 : Nat → Int
  | 0 => 1
  | n + 1 => 10 * ipow10 n

/-- A Python `decimal.Decimal` value: mantissa `m` and exponent `e`,
denoting the exact number `m * 10 ^ e`. -/
structure Dec where
  m : Int
  e : Int
deriving DecidableEq, Repr

namespace Dec

/-- The rational number a `Dec` denotes. -/
def toRat (a : Dec) : ℚ := (a.m : ℚ) * (10 : ℚ) ^ a.e

/-- Rewrite both operands to a common (minimal) exponent; returns the two
aligned mantissas and the common exponent. -/
def align (a b : Dec) : Int × Int × Int :=
  let k := min a.e b.e
  (a.m * ipow10 (a.e - k).toNat, b.m * ipow10 (b.e - k).toNat, k)

/-- Exact `Decimal` subtraction. -/
def sub (a b : Dec) : Dec :=
  let (x, y, k) := align a b
  ⟨x - y, k⟩

/-- Exact `Decimal` addition. -/
def add (a b : Dec) : Dec :=
  let (x, y, k) := align a b
  ⟨x + y, k⟩

/-- `Decimal` absolute value. -/
def absD (a : Dec) : Dec := ⟨|a.m|, a.e⟩

/-- Value comparison `a <= b` (Python `Decimal.__le__`). -/
def le (a b : Dec) : Bool :=
  let (x, y, _) := align a b
  decide (x ≤ y)

/-- Value comparison `a < b` (Python `Decimal.__lt__`). -/
def lt (a b : Dec) : Bool :=
  let (x, y, _) := align a b
  decide (x < y)

/-- Value equality `a == b` (Python `Decimal.__eq__` compares the denoted
numbers, not the representations). -/
def beqVal (a b : Dec) : Bool :=
  let (x, y, _) := align a b
  decide (x = y)

/-- `Decimal.scaleb(d)`: multiply by `10 ^ d` (adjust the exponent). -/
def scaleb (d : Int) (a : Dec) : Dec := ⟨a.m, a.e + d⟩

/-- `Decimal.quantize(1, decimal.ROUND_HALF_EVEN)`: the value rounded to the
nearest integer with ties to the even neighbour.  For a negative exponent
this divides the mantissa by `10 ^ (-e)` with round-half-to-even (using
Euclidean division, whose remainder is in `[0, p)`). -/
def quantizeHalfEven1 (a : Dec) : Int :=
  if 0 ≤ a.e then a.m * ipow10 a.e.toNat
  else
    let p := ipow10 (-a.e).toNat
    let q := a.m / p
    let r := a.m % p
    if 2 * r < p then q
    else if p < 2 * r then q + 1
    else if q % 2 = 0 then q else q + 1

end Dec

/-- `v.scaleb(d).quantize(1, ROUND_HALF_EVEN).scaleb(-d)` from
`decimal_comparison`: round `v` to precision `d` (the `10 ^ (-d)` place)
using round-half-to-even. -/
def round_to_precision (d : Int) (v : Dec) : Dec :=
  Dec.scaleb (-d) ⟨Dec.quantizeHalfEven1 (Dec.scaleb d v), 0⟩

/-- A qualified name: namespace URI plus local name (`xml.QName`). -/
structure QName where
  namespace_name : String
  local_name : String
deriving DecidableEq, Repr

/-- Taxonomy concept metadata as consumed by the engine: qualified name,
numeric classification, whether its type derives from `textBlockItemType`,
and the dimension's default member (for axis concepts). -/
structure Concept where
  qname : QName
  is_numeric : Bool
  is_textblock : Bool
  default_member : Option QName
deriving DecidableEq, Repr

/-- An XBRL period aspect value: `INSTANT`, `START_END` or `FOREVER`. -/
inductive Period where
  | instant (t : PyDatetime)
  | startEnd (s e : PyDatetime)
  | forever
deriving DecidableEq, Repr

/-- A reported fact: concept, period, entity, explicit dimension aspect
values (dimension, member), unit, decimals, numeric and normalized value,
nil flag, and the schema-typed date value of its element (used by rules
0033/0036 on `DocumentPeriodEndDate` facts, as a day ordinal). -/
structure Fact where
  concept : QName
  period : Period
  entity : String
  dims : List (QName × QName)
  unit : Option String
  decimals : Option Int
  numeric_value : Dec
  xsi_nil : Bool
  normalized_value : String
  schema_date_ordinal : Option Int
deriving DecidableEq, Repr

/-- A diagnostic delivered to the error log: the rule id embedded in the
headline and the facts the message references (`fact1` first). -/
structure Diagnostic where
  rule_id : String
  facts : List Fact
deriving DecidableEq, Repr

/-- `period_end` (dqc_validation.py:94): end date of a duration period,
instant date of an instant period, `datetime.max` for a forever period. -/
def period_end (fact : Fact) : PyDatetime :=
  match fact.period with
  | .startEnd _ e => e
  | .instant t => t
  | .forever => datetime_max

/-- `period_duration` (dqc_validation.py:104): `(end - start).days` for a
duration, `0` for an instant, `sys.maxsize` for a forever period.
`timedelta.days` is floor division of the microsecond difference. -/
def period_duration (fact : Fact) : Int :=
  match fact.period with
  | .startEnd s e => (e - s).fdiv usecPerDay
  | .instant _ => 0
  | .forever => sys_maxsize

/-- `min(fact1.decimals, fact2.decimals)` where `none` is `float('inf')`. -/
def minDec : Option Int → Option Int → Option Int
  | none, none => none
  | none, some b => some b
  | some a, none => some a
  | some a, some b => some (min a b)

/-- `decimal_comparison` (dqc_validation.py:273): round both numeric fact
values to the least accurate precision of the two facts and call `cmp` with
the rounded values; compare raw values when both precisions are infinite
(in which case `cmp` receives no decimals, i.e. `none`). -/
def decimal_comparison (fact1 fact2 : Fact) (cmp : Dec → Dec → Option Int → Bool) : Bool :=
  match minDec fact1.decimals fact2.decimals with
  | none => cmp fact1.numeric_value fact2.numeric_value none
  | some decimals =>
    cmp (round_to_precision decimals fact1.numeric_value)
        (round_to_precision decimals fact2.numeric_value) (some decimals)

/-- `equal_within_tolerance` (dqc_validation.py:283): exact equality when no
decimals are given, otherwise `|val1 - val2| <= Decimal(2).scaleb(-decimals)`
(a tolerance of two units at the reported scale). -/
def equal_within_tolerance (val1 val2 : Dec) (decimals : Option Int) : Bool :=
  match decimals with
  | none => Dec.beqVal val1 val2
  | some d => Dec.le (Dec.absD (Dec.sub val1 val2)) (Dec.scaleb (-d) ⟨2, 0⟩)

/-- `less_or_equal` (dqc_validation.py:290): `val1 <= val2`, ignoring the
decimals argument. -/
def less_or_equal (val1 val2 : Dec) (_decimals : Option Int) : Bool :=
  Dec.le val1 val2

/-- Does the character list `p` occur as a leading segment of `s`? -/
def list_starts_with : List Char → List Char → Bool
  | [], _ => true
  | _ :: _, [] => false
  | a :: as, b :: bs => a = b && list_starts_with as bs

/-- Does the character list `p` occur anywhere inside `s`? -/
def list_contains_sub (p : List Char) : List Char → Bool
  | [] => list_starts_with p []
  | s@(_ :: rest) => list_starts_with p s || list_contains_sub p rest

/-- Python `str.endswith`. -/
def str_ends_with (s suffix : String) : Bool :=
  list_starts_with suffix.data.reverse s.data.reverse

/-- Case-insensitive substring test: `re.search(text, name, re.IGNORECASE)`
for the plain-text patterns of the member-exclusion table. -/
def str_contains_ci (name text : String) : Bool :=
  list_contains_sub text.toLower.data name.toLower.data

/-- Dictionary lookup in an association list (`dict.get`): the most recent
binding for the key, if any. -/
def dict_get {κ α : Type} [DecidableEq κ] (l : List (κ × α)) (k : κ) : Option α :=
  (l.find? (fun p => decide (p.1 = k))).map (·.2)

/-- Dictionary update (`d[k] = v`): prepend, so that `dict_get` sees the
newest binding.  Only lookups are performed on the engine's dicts, so this
is observationally the same as in-place replacement. -/
def dict_upd {κ α : Type} (l : List (κ × α)) (k : κ) (v : α) : List (κ × α) :=
  (k, v) :: l

/-- The document model handed to `validate`: the target namespaces of the
loaded taxonomy schemas, the resolvable concepts of the DTS, whether the
DTS defines `textBlockItemType`, and the fact population. -/
structure Instance where
  taxonomy_namespaces : List (Option String)
  dts_concepts : List Concept
  has_textblock_type : Bool
  facts : List Fact
deriving DecidableEq, Repr

/-- A member-exclusion rule from `dqc_0015_member_exclusions.json`: leaf
tests `Contains the text` and `Equals` (each tagged with the `dim` selector
that chooses between the member's and the dimension's local name) and the
boolean connectives `AND` / `OR`. -/
inductive MXRule where
  | containsText (dim : String) (text : String)
  | equalsName (dim : String) (name : String)
  | andRule (arg1 arg2 : MXRule)
  | orRule (arg1 arg2 : MXRule)
deriving DecidableEq, Repr

/-- The external rule-data tables (versioned JSON, loaded at process start). -/
structure Tables where
  period_focus_durations : List (String × Int × Int)
  dqc_0009_rows : List (String × String × String × String × String)
  dqc_0015_rows : List (String × String × String)
  member_exclusions : List MXRule
deriving Repr

/-- `instance.dts.resolve_concept(xml.QName(local_name, ns))`; a `none`
namespace (absent prefix) resolves to no concept. -/
def resolve_concept (inst : Instance) (ns : Option String) (local_name : String) :
    Option Concept :=
  match ns with
  | none => none
  | some n =>
    inst.dts_concepts.find? (fun c => decide (c.qname = QName.mk n local_name))

/-- Resolve a concept from a qualified name already in hand. -/
def concept_of (inst : Instance) (q : QName) : Option Concept :=
  inst.dts_concepts.find? (fun c => decide (c.qname = q))

/-- `instance.facts.filter(concept)` (no nil filtering). -/
def facts_of_concept (inst : Instance) (c : Option Concept) : List Fact :=
  match c with
  | none => []
  | some c => inst.facts.filter (fun f => decide (f.concept = c.qname))

/-- The member bound to dimension `dim` in the fact's context, if the fact
carries that dimension explicitly (`dimension_value`, dqc_validation.py:294;
`none` both when the dimension is absent from the context and when the
dimension concept itself did not resolve). -/
def dimension_value (fact : Fact) (dim : Option Concept) : Option QName :=
  match dim with
  | none => none
  | some d => (fact.dims.find? (fun p => decide (p.1 = d.qname))).map (·.2)

/-- The default member of an (optionally resolved) dimension concept. -/
def default_member_of (dim : Option Concept) : Option QName :=
  dim.bind Concept.default_member

/-- `suppress_errors` lookup plus diagnostic construction
(`report_error`, dqc_validation.py:250): a violation whose rule id is in the
suppression set is dropped before any message construction; otherwise a
diagnostic referencing the given facts is handed to the error log.  The
message-template expansion (`create_error`) is modelled separately and does
not affect whether a diagnostic is emitted. -/
def report_error (suppress_errors : List String) (rule_id : String)
    (facts : List Fact) : Option Diagnostic :=
  if rule_id ∈ suppress_errors then none
  else some ⟨rule_id, facts⟩

/-- The aspect match of `instance.facts.filter(cs, allow_nil=False,
allow_additional_dimensions=...)` where `cs = ConstraintSet(fact1)` with the
concept aspect replaced by `concept2`: candidate facts must carry the target
concept and `fact1`'s entity, period and unit; every dimension aspect of
`fact1` must be present in the candidate, and unless
`allow_additional_dimensions` is set the candidate may not carry dimension
aspects beyond `fact1`'s. -/
def matches_constraints (fact1 : Fact) (concept2 : Concept)
    (allow_additional_dimensions : Bool) (f : Fact) : Bool :=
  decide (f.concept = concept2.qname) && decide (f.entity = fact1.entity) &&
  decide (f.period = fact1.period) && decide (f.unit = fact1.unit) &&
  fact1.dims.all (fun d => f.dims.any (fun d2 => decide (d2 = d))) &&
  (allow_additional_dimensions ||
   f.dims.all (fun d => fact1.dims.any (fun d2 => decide (d2 = d))))

/-- `_dqc_0004` (dqc_validation.py:345): for every non-nil fact of
`concept1`, compare against every non-nil fact of `concept2` in an
equivalent context (no additional dimensions allowed) and report a
violation when the values are not equal within tolerance. -/
def _dqc_0004 (inst : Instance) (suppress_errors : List String) (rule_id : String)
    (concept1 concept2 : Concept) : List Diagnostic :=
  ((inst.facts.filter (fun f => decide (f.concept = concept1.qname) && !f.xsi_nil)).map
    (fun fact1 =>
      ((inst.facts.filter (fun f => matches_constraints fact1 concept2 false f && !f.xsi_nil)).filterMap
        (fun fact2 =>
          if !decimal_comparison fact1 fact2 equal_within_tolerance then
            report_error suppress_errors rule_id [fact1, fact2]
          else none)))).flatten

/-- `dqc_0004_16` (dqc_validation.py:356): the designated concept pair
`Assets` / `LiabilitiesAndStockholdersEquity` of the `us-gaap` namespace;
no-op when either concept is unresolvable. -/
def dqc_0004_16 (inst : Instance) (suppress_errors : List String)
    (namespaces : List (String × String)) : List Diagnostic :=
  match resolve_concept inst (dict_get namespaces "us-gaap") "Assets",
        resolve_concept inst (dict_get namespaces "us-gaap") "LiabilitiesAndStockholdersEquity" with
  | some concept_Assets, some concept_LiabilitiesAndStockholdersEquity =>
    _dqc_0004 inst suppress_errors "DQC.US.0004.16"
      concept_Assets concept_LiabilitiesAndStockholdersEquity
  | _, _ => []

/-- `dqc_0004` (dqc_validation.py:364): the equality rule family. -/
def dqc_0004 (inst : Instance) (suppress_errors : List String)
    (namespaces : List (String × String)) : List Diagnostic :=
  dqc_0004_16 inst suppress_errors namespaces

/-- `reporting_period_ends` (dqc_validation.py:299): the latest
`DocumentPeriodEndDate` fact (with the period aspect's end date, not the
fact value) per legal-entity member.  `DocumentPeriodEndDate` facts carry
duration contexts, so the period aspect's end date is `period_end`. -/
def reporting_period_ends (inst : Instance) (dei_namespace : Option String) :
    List (Option QName × (Fact × PyDatetime)) :=
  let dim_LegalEntityAxis := resolve_concept inst dei_namespace "LegalEntityAxis"
  let concept_DocumentPeriodEndDate :=
    resolve_concept inst dei_namespace "DocumentPeriodEndDate"
  (facts_of_concept inst concept_DocumentPeriodEndDate).foldl
    (fun acc fact =>
      let end_date := period_end fact
      let legal_entity := dimension_value fact dim_LegalEntityAxis
      match dict_get acc legal_entity with
      | none => dict_upd acc legal_entity (fact, end_date)
      | some prev =>
        if prev.2 < end_date then dict_upd acc legal_entity (fact, end_date) else acc)
    []

/-- `_dqc_0005` (dqc_validation.py:369): for each fact of the given subset,
find the reporting period end for its legal entity (falling back to the
axis default member) and report when the fact's period end does not satisfy
`cmp` against it. -/
def _dqc_0005 (inst : Instance) (suppress_errors : List String) (rule_id : String)
    (namespaces : List (String × String)) (facts : List Fact)
    (rpe : List (Option QName × (Fact × PyDatetime)))
    (cmp : PyDatetime → PyDatetime → Bool) : List Diagnostic :=
  let dim_LegalEntityAxis := resolve_concept inst (dict_get namespaces "dei") "LegalEntityAxis"
  facts.filterMap (fun fact1 =>
    let rp0 := dict_get rpe (dimension_value fact1 dim_LegalEntityAxis)
    let rp := match rp0 with
      | some x => some x
      | none => dict_get rpe (default_member_of dim_LegalEntityAxis)
    match rp with
    | none => none
    | some reporting_period_end =>
      if !cmp (period_end fact1) reporting_period_end.2 then
        report_error suppress_errors rule_id [fact1, reporting_period_end.1]
      else none)

/-- `dqc_0005_17` (dqc_validation.py:385): shares-outstanding facts must
have a period end on or after the reporting period end (`operator.ge`). -/
def dqc_0005_17 (inst : Instance) (suppress_errors : List String)
    (namespaces : List (String × String))
    (rpe : List (Option QName × (Fact × PyDatetime))) : List Diagnostic :=
  let facts := facts_of_concept inst
    (resolve_concept inst (dict_get namespaces "dei") "EntityCommonStockSharesOutstanding")
  _dqc_0005 inst suppress_errors "DQC.US.0005.17" namespaces facts rpe
    (fun a b => decide (a ≥ b))

/-- `dqc_0005_48` (dqc_validation.py:393): facts carrying any non-default
`SubsequentEventTypeAxis` member (the complement of the default-member
constraint set) must have a period end strictly after the reporting period
end (`operator.gt`); no-op when the axis is unresolvable. -/
def dqc_0005_48 (inst : Instance) (suppress_errors : List String)
    (namespaces : List (String × String))
    (rpe : List (Option QName × (Fact × PyDatetime))) : List Diagnostic :=
  match resolve_concept inst (dict_get namespaces "us-gaap") "SubsequentEventTypeAxis" with
  | none => []
  | some dim_SubsequentEventTypeAxis =>
    let facts := inst.facts.filter
      (fun f => (dimension_value f (some dim_SubsequentEventTypeAxis)).isSome)
    _dqc_0005 inst suppress_errors "DQC.US.0005.48" namespaces facts rpe
      (fun a b => decide (a > b))

/-- `dqc_0005_49` (dqc_validation.py:404): facts scenario-dimensioned as
`ScenarioForecastMember` must have a period end strictly after the
reporting period end; no-op when the scenario axis is unresolvable.  When
the member concept is unresolvable the constraint set degenerates to the
axis default member (dimension absent). -/
def dqc_0005_49 (inst : Instance) (suppress_errors : List String)
    (namespaces : List (String × String))
    (rpe : List (Option QName × (Fact × PyDatetime))) : List Diagnostic :=
  match resolve_concept inst (dict_get namespaces "us-gaap") "StatementScenarioAxis" with
  | none => []
  | some dim_StatementScenarioAxis =>
    let member_ScenarioForecastMember :=
      resolve_concept inst (dict_get namespaces "us-gaap") "ScenarioForecastMember"
    let facts := inst.facts.filter (fun f =>
      decide (dimension_value f (some dim_StatementScenarioAxis)
              = member_ScenarioForecastMember.map Concept.qname))
    _dqc_0005 inst suppress_errors "DQC.US.0005.49" namespaces facts rpe
      (fun a b => decide (a > b))

/-- `dqc_0005` (dqc_validation.py:416): context dates after period end. -/
def dqc_0005 (inst : Instance) (suppress_errors : List String)
    (namespaces : List (String × String)) : List Diagnostic :=
  let reporting_periods := reporting_period_ends inst (dict_get namespaces "dei")
  dqc_0005_17 inst suppress_errors namespaces reporting_periods ++
  dqc_0005_48 inst suppress_errors namespaces reporting_periods ++
  dqc_0005_49 inst suppress_errors namespaces reporting_periods

/-- The fiscal-period-focus fact governing `fact1`: the entry for the
fact's own legal-entity member, falling back to the axis default member
(the two-step lookup at dqc_validation.py:429..431). -/
def _dqc_0006_period_focus (dim_LegalEntityAxis : Option Concept)
    (period_focus_for_legal_entity : List (Option QName × Fact))
    (fact1 : Fact) : Option Fact :=
  match dict_get period_focus_for_legal_entity
      (dimension_value fact1 dim_LegalEntityAxis) with
  | some f => some f
  | none => dict_get period_focus_for_legal_entity
      (default_member_of dim_LegalEntityAxis)

/-- `_dqc_0006` (dqc_validation.py:424): for each covered fact, resolve the
fiscal-period-focus fact of its legal entity (with default-member
fallback); when its normalized value has a configured `[min, max]` day
range and the fact's period duration falls outside it, report
`DQC.US.0006.14`. -/
def _dqc_0006 (period_focus_durations : List (String × Int × Int))
    (suppress_errors : List String) (dim_LegalEntityAxis : Option Concept)
    (period_focus_for_legal_entity : List (Option QName × Fact))
    (facts : List Fact) : List Diagnostic :=
  facts.filterMap (fun fact1 =>
    match _dqc_0006_period_focus dim_LegalEntityAxis period_focus_for_legal_entity fact1 with
    | none => none
    | some period_focus =>
      match dict_get period_focus_durations period_focus.normalized_value with
      | none => none
      | some duration =>
        if !(decide (duration.1 ≤ period_duration fact1) &&
             decide (period_duration fact1 ≤ duration.2)) then
          report_error suppress_errors "DQC.US.0006.14" [fact1, period_focus]
        else none)

/-- The ten fixed DEI concepts covered by rule 0006
(dqc_validation.py:456). -/
def dqc_0006_fact_names : List String :=
  ["AmendmentDescription", "AmendmentFlag", "CurrentFiscalYearEndDate",
   "DocumentPeriodEndDate", "DocumentFiscalYearFocus", "DocumentFiscalPeriodFocus",
   "DocumentType", "EntityRegistrantName", "EntityCentralIndexKey",
   "EntityFilerCategory"]

/-- `textblock_facts` (dqc_validation.py:316): the facts whose concept's
type derives from `textBlockItemType`; empty when the DTS does not define
that type. -/
def textblock_facts (inst : Instance) : List Fact :=
  if inst.has_textblock_type then
    inst.facts.filter (fun f => ((concept_of inst f.concept).map Concept.is_textblock).getD false)
  else []

/-- The fiscal-period-focus dictionary of a document, keyed by
legal-entity member (the loop at dqc_validation.py:452..454; later facts
overwrite earlier ones). -/
def dqc_0006_period_focus_map (inst : Instance)
    (namespaces : List (String × String)) : List (Option QName × Fact) :=
  (facts_of_concept inst
      (resolve_concept inst (dict_get namespaces "dei") "DocumentFiscalPeriodFocus")).foldl
    (fun acc fact =>
      dict_upd acc
        (dimension_value fact (resolve_concept inst (dict_get namespaces "dei") "LegalEntityAxis"))
        fact)
    []

/-- The non-skipped body of rule 0006 (dqc_validation.py:449..474): run
`_dqc_0006` over each of the ten fixed DEI concepts that resolves, then
over every text-block fact. -/
def dqc_0006_covered (period_focus_durations : List (String × Int × Int))
    (inst : Instance) (suppress_errors : List String)
    (namespaces : List (String × String)) : List Diagnostic :=
  ((dqc_0006_fact_names.map (fun name =>
      match resolve_concept inst (dict_get namespaces "dei") name with
      | none => []
      | some concept =>
        _dqc_0006 period_focus_durations suppress_errors
          (resolve_concept inst (dict_get namespaces "dei") "LegalEntityAxis")
          (dqc_0006_period_focus_map inst namespaces)
          (facts_of_concept inst (some concept)))).flatten)
  ++ _dqc_0006 period_focus_durations suppress_errors
       (resolve_concept inst (dict_get namespaces "dei") "LegalEntityAxis")
       (dqc_0006_period_focus_map inst namespaces)
       (textblock_facts inst)

/-- `dqc_0006` (dqc_validation.py:438): skipped unless exactly one
`DocumentType` fact exists whose value does not end in `"T"` or `"T/A"`
(amended/transition filings and ill-formed documents are not tested);
otherwise checks the ten fixed DEI concepts and every text-block fact. -/
def dqc_0006 (period_focus_durations : List (String × Int × Int)) (inst : Instance)
    (suppress_errors : List String) (namespaces : List (String × String)) :
    List Diagnostic :=
  match facts_of_concept inst (resolve_concept inst (dict_get namespaces "dei") "DocumentType") with
  | [fact_DocumentType] =>
    if str_ends_with fact_DocumentType.normalized_value "T" ||
       str_ends_with fact_DocumentType.normalized_value "T/A" then []
    else dqc_0006_covered period_focus_durations inst suppress_errors namespaces
  | _ => []

/-- `dqc_0009` (dqc_validation.py:476): table-driven "A must be less than
or equal to B" checks, matched like rule 0004 and compared with
`less_or_equal`. -/
def dqc_0009 (rows : List (String × String × String × String × String))
    (inst : Instance) (suppress_errors : List String)
    (namespaces : List (String × String)) : List Diagnostic :=
  (rows.map (fun row =>
    match row with
    | (rule_id, pfx1, name1, pfx2, name2) =>
      match resolve_concept inst (dict_get namespaces pfx1) name1,
            resolve_concept inst (dict_get namespaces pfx2) name2 with
      | some concept1, some concept2 =>
        ((inst.facts.filter (fun f => decide (f.concept = concept1.qname) && !f.xsi_nil)).map
          (fun fact1 =>
            ((inst.facts.filter
                (fun f => matches_constraints fact1 concept2 false f && !f.xsi_nil)).filterMap
              (fun fact2 =>
                if !decimal_comparison fact1 fact2 less_or_equal then
                  report_error suppress_errors rule_id [fact1, fact2]
                else none)))).flatten
      | _, _ => [])).flatten

/-- `_dqc_0015_member_exclusions_test` (dqc_validation.py:491..508): the
recursive evaluator of a member-exclusion expression tree against one
dimension aspect value `(dimension, member)`.  A leaf tagged `Member` tests
the member's local name, any other tag tests the dimension's local name;
`Contains the text` is a case-insensitive text search, `Equals` an exact
name comparison. -/
def _dqc_0015_member_exclusions_test (rule : MXRule) (dim_aspect : QName × QName) : Bool :=
  match rule with
  | .containsText dim text =>
    str_contains_ci (if dim = "Member" then dim_aspect.2.local_name
                     else dim_aspect.1.local_name) text
  | .equalsName dim name =>
    decide ((if dim = "Member" then dim_aspect.2.local_name
             else dim_aspect.1.local_name) = name)
  | .andRule arg1 arg2 =>
    _dqc_0015_member_exclusions_test arg1 dim_aspect &&
    _dqc_0015_member_exclusions_test arg2 dim_aspect
  | .orRule arg1 arg2 =>
    _dqc_0015_member_exclusions_test arg1 dim_aspect ||
    _dqc_0015_member_exclusions_test arg2 dim_aspect

/-- `_dqc_0015_member_exclusions_check` (dqc_validation.py:510): does any
dimension aspect value of the fact satisfy any exclusion rule? -/
def _dqc_0015_member_exclusions_check (member_exclusions : List MXRule)
    (fact : Fact) : Bool :=
  fact.dims.any (fun dim_aspect =>
    member_exclusions.any (fun rule =>
      _dqc_0015_member_exclusions_test rule dim_aspect))

/-- One `(rule id, prefix, concept name)` row of the non-negative rule:
report each non-nil fact of the (resolved) concept with a negative numeric
value, unless a member exclusion applies; no-op when the concept is
unresolvable (`dqc_0015`'s loop body, dqc_validation.py:520..525). -/
def dqc_0015_row (member_exclusions : List MXRule) (inst : Instance)
    (suppress_errors : List String) (namespaces : List (String × String))
    (rule_id pfx name : String) : List Diagnostic :=
  match resolve_concept inst (dict_get namespaces pfx) name with
  | none => []
  | some concept =>
    (inst.facts.filter (fun f => decide (f.concept = concept.qname) && !f.xsi_nil)).filterMap
      (fun fact1 =>
        if Dec.lt fact1.numeric_value ⟨0, 0⟩ &&
           !_dqc_0015_member_exclusions_check member_exclusions fact1 then
          report_error suppress_errors rule_id [fact1]
        else none)

/-- `dqc_0015` (dqc_validation.py:517): the non-negative rule over every
row of its table. -/
def dqc_0015 (rows : List (String × String × String)) (member_exclusions : List MXRule)
    (inst : Instance) (suppress_errors : List String)
    (namespaces : List (String × String)) : List Diagnostic :=
  (rows.map (fun row =>
    dqc_0015_row member_exclusions inst suppress_errors namespaces
      row.1 row.2.1 row.2.2)).flatten

/-- `facts_in_namespace` (dqc_validation.py:335): the facts whose concept
lives in the given namespace, excluding the listed local names. -/
def facts_in_namespace (inst : Instance) (namespace_name : Option String)
    (ignored : List String) : List Fact :=
  match namespace_name with
  | none => []
  | some n =>
    inst.facts.filter (fun f =>
      decide (f.concept.namespace_name = n) && !ignored.any (fun i => decide (f.concept.local_name = i)))

/-- `datetime.combine(schema_value, time()) + timedelta(days=1)` for a
schema-typed date given as a day ordinal: midnight of the next day. -/
def schema_end_date (ordinal : Int) : PyDatetime := (ordinal + 1) * usecPerDay

/-- `dqc_0033` (dqc_validation.py:527): entity DEI facts (minus a fixed set
of meta concepts) must share the `DocumentPeriodEndDate` fact's period end,
for entities whose declared document period end date is itself valid
(schema date + 1 day within 3 days of the context's period end).  A
`DocumentPeriodEndDate` fact without a schema-typed date value is treated
as inapplicable (the observed logic presupposes the value exists). -/
def dqc_0033 (inst : Instance) (suppress_errors : List String)
    (namespaces : List (String × String)) : List Diagnostic :=
  let dei_namespace := dict_get namespaces "dei"
  let dim_LegalEntityAxis := resolve_concept inst dei_namespace "LegalEntityAxis"
  let concept_DocumentPeriodEndDate :=
    resolve_concept inst dei_namespace "DocumentPeriodEndDate"
  let reporting_periods :=
    (facts_of_concept inst concept_DocumentPeriodEndDate).foldl
      (fun acc fact1 =>
        match fact1.schema_date_ordinal with
        | none => acc
        | some ordinal =>
          let end_date := schema_end_date ordinal
          let is_valid :=
            decide (|Int.fdiv (end_date - period_end fact1) usecPerDay| ≤ 3)
          dict_upd acc (dimension_value fact1 dim_LegalEntityAxis) (fact1, is_valid))
      []
  (facts_in_namespace inst dei_namespace
      ["EntityCommonStockSharesOutstanding", "EntityPublicFloat",
       "DocumentPeriodEndDate", "EntityNumberOfEmployees",
       "EntityListingDepositoryReceiptRatio"]).filterMap
    (fun fact1 =>
      let rp0 := dict_get reporting_periods (dimension_value fact1 dim_LegalEntityAxis)
      let rp := match rp0 with
        | some x => some x
        | none => dict_get reporting_periods (default_member_of dim_LegalEntityAxis)
      match rp with
      | none => none
      | some reporting_period =>
        if reporting_period.2 && decide (period_end fact1 ≠ period_end reporting_period.1) then
          report_error suppress_errors "DQC.US.0033.2" [fact1, reporting_period.1]
        else none)

/-- `dqc_0036` (dqc_validation.py:550): each `DocumentPeriodEndDate` fact's
schema-typed value (+1 day) must be within 3 days of its own context's
period end.  A fact without a schema-typed date value is treated as
inapplicable (the observed logic presupposes the value exists). -/
def dqc_0036 (inst : Instance) (suppress_errors : List String)
    (namespaces : List (String × String)) : List Diagnostic :=
  let concept_DocumentPeriodEndDate :=
    resolve_concept inst (dict_get namespaces "dei") "DocumentPeriodEndDate"
  (facts_of_concept inst concept_DocumentPeriodEndDate).filterMap
    (fun fact1 =>
      match fact1.schema_date_ordinal with
      | none => none
      | some ordinal =>
        let end_date := schema_end_date ordinal
        if decide (|Int.fdiv (end_date - period_end fact1) usecPerDay| > 3) then
          report_error suppress_errors "DQC.US.0036.1" [fact1]
        else none)

/-- The date token of a standard namespace URI: exactly ten characters,
each a digit or `-` (the `[0-9-]{10}` part of the patterns). -/
def date_token_ok (s : List Char) : Bool :=
  decide (s.length = 10) && s.all (fun c => c.isDigit || c = '-')

/-- Full match of a standard-namespace regular expression: one of the
accepted authority stems followed by a ten-character date token. -/
def ns_match (stems : List String) (uri : String) : Bool :=
  stems.any (fun stem =>
    list_starts_with stem.data uri.data && date_token_ok (uri.data.drop stem.length))

/-- The `dei` namespace pattern
`http://xbrl\.(us|sec\.gov)/dei/[0-9-]{10}`. -/
def re_dei : String → Bool :=
  ns_match ["http://xbrl.us/dei/", "http://xbrl.sec.gov/dei/"]

/-- `re_namespaces` (dqc_validation.py:54): the nine well-known taxonomy
families and their full-match URI patterns, in declaration order. -/
def re_namespaces : List (String × (String → Bool)) :=
  [("country", ns_match ["http://xbrl.us/country/", "http://xbrl.sec.gov/country/"]),
   ("currency", ns_match ["http://xbrl.us/currency/", "http://xbrl.sec.gov/currency/"]),
   ("dei", re_dei),
   ("exch", ns_match ["http://xbrl.us/exch/", "http://xbrl.sec.gov/exch/"]),
   ("invest", ns_match ["http://xbrl.us/invest/", "http://xbrl.sec.gov/invest/"]),
   ("naics", ns_match ["http://xbrl.us/naics/", "http://xbrl.sec.gov/naics/"]),
   ("sic", ns_match ["http://xbrl.us/sic/", "http://xbrl.sec.gov/sic/"]),
   ("stpr", ns_match ["http://xbrl.us/stpr/", "http://xbrl.sec.gov/stpr/"]),
   ("us-gaap", ns_match ["http://xbrl.us/us-gaap/", "http://fasb.org/us-gaap/"])]

/-- `standard_namespaces` (dqc_validation.py:559): map every loaded
taxonomy's target namespace against each family pattern; matches are
recorded under the family's short prefix (later taxonomies win). -/
def standard_namespaces (taxonomy_namespaces : List (Option String)) :
    List (String × String) :=
  taxonomy_namespaces.foldl
    (fun acc t =>
      match t with
      | none => acc
      | some target_namespace =>
        re_namespaces.foldl
          (fun acc2 pr =>
            if pr.2 target_namespace then dict_upd acc2 pr.1 target_namespace else acc2)
          acc)
    []

/-- `parse_suppress_errors` (dqc_validation.py:569): the `suppressErrors`
script parameter split on `|`; empty or absent yields no codes. -/
def parse_suppress_errors (params : List (String × String)) : List String :=
  match dict_get params "suppressErrors" with
  | none => []
  | some val => if val = "" then [] else val.splitOn "|"

/-- The seven rule families invoked in sequence by `validate`
(dqc_validation.py:582..588). -/
def run_rules (tables : Tables) (inst : Instance) (suppress_errors : List String)
    (namespaces : List (String × String)) : List Diagnostic :=
  dqc_0004 inst suppress_errors namespaces ++
  dqc_0005 inst suppress_errors namespaces ++
  dqc_0006 tables.period_focus_durations inst suppress_errors namespaces ++
  dqc_0009 tables.dqc_0009_rows inst suppress_errors namespaces ++
  dqc_0015 tables.dqc_0015_rows tables.member_exclusions inst suppress_errors namespaces ++
  dqc_0033 inst suppress_errors namespaces ++
  dqc_0036 inst suppress_errors namespaces

/-- `validate` (dqc_validation.py:576): no-op without an instance; build
the suppression set (stripping each configured code), resolve the standard
namespaces once, and run every rule family only when a `dei` taxonomy is
loaded. -/
def validate (tables : Tables) (inst : Option Instance)
    (params : List (String × String)) : List Diagnostic :=
  match inst with
  | none => []
  | some inst =>
    let suppress_errors := (parse_suppress_errors params).map String.trim
    let namespaces := standard_namespaces inst.taxonomy_namespaces
    if (dict_get namespaces "dei").isSome then
      run_rules tables inst suppress_errors namespaces
    else []

/-- A Python `datetime` in civil-calendar form, for `format_date` (which
renders and decrements calendar dates rather than comparing them). -/
structure CivilDT where
  year : Int
  month : Int
  day : Int
  hour : Int
  minute : Int
  second : Int
  usec : Int
deriving DecidableEq, Repr

/-- `val.time() == datetime.time.min`: midnight exactly. -/
def CivilDT.time_is_min (v : CivilDT) : Bool :=
  decide (v.hour = 0) && decide (v.minute = 0) && decide (v.second = 0) && decide (v.usec = 0)

/-- Gregorian leap-year rule. -/
def is_leap_year (y : Int) : Bool :=
  (decide (y % 4 = 0) && !decide (y % 100 = 0)) || decide (y % 400 = 0)

/-- Days in a Gregorian month. -/
def days_in_month (y m : Int) : Int :=
  if m = 2 then (if is_leap_year y then 29 else 28)
  else if m = 4 || m = 6 || m = 9 || m = 11 then 30
  else 31

/-- `val - datetime.timedelta(days=1)` on the calendar date part. -/
def sub_one_day (v : CivilDT) : CivilDT :=
  if 1 < v.day then { v with day := v.day - 1 }
  else if 1 < v.month then
    { v with month := v.month - 1, day := days_in_month v.year (v.month - 1) }
  else { v with year := v.year - 1, month := 12, day := 31 }

/-- Two-digit zero padding (`%m`, `%d`, `%H`, `%M`, `%S`). -/
def pad2 (n : Int) : String :=
  if n < 10 then "0" ++ toString n else toString n

/-- Four-digit zero padding (`%Y`). -/
def pad4 (n : Int) : String :=
  if n < 10 then "000" ++ toString n
  else if n < 100 then "00" ++ toString n
  else if n < 1000 then "0" ++ toString n
  else toString n

/-- `val.strftime('%Y-%m-%d')`. -/
def render_date (v : CivilDT) : String :=
  pad4 v.year ++ "-" ++ pad2 v.month ++ "-" ++ pad2 v.day

/-- `val.strftime('%Y-%m-%d %H:%M:%S')`. -/
def render_datetime (v : CivilDT) : String :=
  render_date v ++ " " ++ pad2 v.hour ++ ":" ++ pad2 v.minute ++ ":" ++ pad2 v.second

/-- `format_date` (dqc_validation.py:114): values with a nonzero
time-of-day render as a full timestamp; otherwise, when the value stands
for the end of a day (XBRL end dates are midnight of the next day), one day
is subtracted before rendering the date part. -/
def format_date (val : CivilDT) (is_end : Bool) : String :=
  if !val.time_is_min then render_datetime val
  else render_date (if is_end then sub_one_day val else val)

/-- A named argument of `create_error`: a fact, a concept, the rule-version
record, or an opaque scalar (stringified). -/
inductive ErrArg where
  | factArg (f : Fact)
  | conceptArg (c : Concept)
  | ruleArg (ruleVersion releaseDate uri : String)
  | scalarArg (s : String)
deriving DecidableEq, Repr

/-- A piece of the message under construction: literal text, or a rendered
parameter reference (Python's `{key}` format placeholders plus the
associated `xbrl.Error.Param`, identified here by its key). -/
inductive MsgPart where
  | text (s : String)
  | param (key : String)
deriving DecidableEq, Repr

/-- A parsed message template: literal text interleaved with
`${a.b.c}` placeholders (given as their dot-separated parts). -/
inductive TemplateSeg where
  | lit (s : String)
  | placeholder (parts : List String)
deriving DecidableEq, Repr

/-- Join part lists with a separator (`', '.join(...)`). -/
def join_sep (sep : MsgPart) : List (List MsgPart) → List MsgPart
  | [] => []
  | [x] => x
  | x :: xs => x ++ [sep] ++ join_sep sep xs

/-- The `${param.dimensions}` rendering: `dimN = memberN` pairs joined by
commas, or the literal `none` for an undimensioned context. -/
def dims_parts (param : String) (dims : List (QName × QName)) : List MsgPart :=
  match dims with
  | [] => [.text "none"]
  | _ =>
    join_sep (.text ", ")
      (dims.enum.map (fun p =>
        [MsgPart.param (param ++ ".dim" ++ toString p.1),
         MsgPart.text " = ",
         MsgPart.param (param ++ ".member" ++ toString p.1)]))

/-- Resolution of one `${...}` placeholder against the named arguments
(`create_error`, dqc_validation.py:122..246).  Fact arguments expose
`name`, `localName`, `label`, `value`, `period` (with optional
`startDate` / `endDate` / `instant` / `durationDays` subproperty),
`dimensions`, `unit` and `decimals`; an unknown fact property or period
subproperty raises a `KeyError`.  Concept arguments expose `name`,
`localName` and `label`; any other property falls through every branch and
contributes nothing (no error is raised).  RuleVersion and scalar
arguments render unconditionally.  A placeholder whose leading name is not
among the arguments raises `KeyError`; a missing property position raises
`IndexError`. -/
def resolve_placeholder (kargs : List (String × ErrArg)) (parts : List String) :
    Except String (List MsgPart) :=
  match parts with
  | [] => .error "IndexError: empty placeholder"
  | p0 :: rest =>
    let param := (String.intercalate "." parts).replace ":" "_"
    match dict_get kargs p0 with
    | none => .error ("Missing value for parameter " ++ p0)
    | some (ErrArg.factArg fact) =>
      let rest' := match rest with
        | "fact" :: rest2 => rest2
        | _ => rest
      match rest' with
      | [] => .error "IndexError: missing fact property"
      | prop :: sub =>
        if prop = "name" then .ok [.param param]
        else if prop = "localName" then .ok [.param param]
        else if prop = "label" then .ok [.param param]
        else if prop = "value" then .ok [.param param]
        else if prop = "period" then
          match sub with
          | [] =>
            match fact.period with
            | .instant _ => .ok [.param (param ++ ".instant")]
            | .startEnd _ _ =>
              .ok [.param (param ++ ".startDate"), .text " - ", .param (param ++ ".endDate")]
            | .forever => .ok [.text "forever"]
          | sub0 :: _ =>
            if sub0 = "startDate" || sub0 = "endDate" || sub0 = "instant" ||
               sub0 = "durationDays" then .ok [.param param]
            else .error ("Unknown period property " ++ sub0)
        else if prop = "dimensions" then .ok (dims_parts param fact.dims)
        else if prop = "unit" then
          match fact.unit with
          | some _ => .ok [.param (param ++ ".num0")]
          | none => .ok [.text "none"]
        else if prop = "decimals" then .ok [.param param]
        else .error ("Unknown fact property " ++ prop)
    | some (ErrArg.conceptArg _) =>
      match rest with
      | [] => .error "IndexError: missing concept property"
      | prop :: _ =>
        if prop = "name" then .ok [.param param]
        else if prop = "localName" then .ok [.param param]
        else if prop = "label" then .ok [.param param]
        else .ok []
    | some (ErrArg.ruleArg _ _ _) => .ok [.param param]
    | some (ErrArg.scalarArg _) => .ok [.param param]

/-- `create_error` (dqc_validation.py:122): expand a parsed message
template against the named arguments; the first failing placeholder aborts
the construction with its error. -/
def create_error (msg : List TemplateSeg) (kargs : List (String × ErrArg)) :
    Except String (List MsgPart) :=
  msg.foldl
    (fun acc seg =>
      match acc with
      | .error e => .error e
      | .ok parts =>
        match seg with
        | .lit s => .ok (parts ++ [.text s])
        | .placeholder ps =>
          match resolve_placeholder kargs ps with
          | .error e => .error e
          | .ok more => .ok (parts ++ more))
    (.ok [])

/-! ## Example documents used by the concrete scenarios -/

/-- A dated `us-gaap` target namespace accepted by the `us-gaap` pattern. -/
def gaap_ns : String := "http://fasb.org/us-gaap/2021-01-31"

/-- A dated `dei` target namespace accepted by the `dei` pattern. -/
def dei_ns : String := "http://xbrl.sec.gov/dei/2021-01-31"

/-- The `us-gaap:Assets` concept. -/
def concept_Assets_ex : Concept := ⟨⟨gaap_ns, "Assets"⟩, true, false, none⟩

/-- The `us-gaap:LiabilitiesAndStockholdersEquity` concept. -/
def concept_LSE_ex : Concept :=
  ⟨⟨gaap_ns, "LiabilitiesAndStockholdersEquity"⟩, true, false, none⟩

/-- An `Assets = 100` fact (decimals 0) in an undimensioned instant context. -/
def fact_Assets_100 : Fact :=
  ⟨⟨gaap_ns, "Assets"⟩, .instant (738156 * usecPerDay), "E1", [], some "USD",
   some 0, ⟨100, 0⟩, false, "100", none⟩

/-- A `LiabilitiesAndStockholdersEquity = v` fact (decimals 0) in the same
context as `fact_Assets_100`. -/
def fact_LSE (v : Int) : Fact :=
  ⟨⟨gaap_ns, "LiabilitiesAndStockholdersEquity"⟩, .instant (738156 * usecPerDay),
   "E1", [], some "USD", some 0, ⟨v, 0⟩, false, "", none⟩

/-- A document with `Assets = 100` and `LiabilitiesAndStockholdersEquity = v`
in the same context, both decimals 0. -/
def inst_C1 (v : Int) : Instance :=
  ⟨[some gaap_ns, some dei_ns], [concept_Assets_ex, concept_LSE_ex], false,
   [fact_Assets_100, fact_LSE v]⟩

/-- A namespace map binding only `us-gaap` (enough for the equality and
non-negative families, which resolve their concepts from `us-gaap`). -/
def ns_gaap : List (String × String) := [("us-gaap", gaap_ns)]

/-- A rule-listed numeric concept for the non-negative rule. -/
def concept_A_ex : Concept := ⟨⟨gaap_ns, "ConceptA"⟩, true, false, none⟩

/-- A second rule-listed numeric concept for the non-negative rule. -/
def concept_B_ex : Concept := ⟨⟨gaap_ns, "ConceptB"⟩, true, false, none⟩

/-- A `ConceptA = -5` fact with no dimensions. -/
def fact_A_neg : Fact :=
  ⟨⟨gaap_ns, "ConceptA"⟩, .instant (738156 * usecPerDay), "E1", [], some "USD",
   some 0, ⟨-5, 0⟩, false, "-5", none⟩

/-- A `ConceptB = -7` fact with no dimensions. -/
def fact_B_neg : Fact :=
  ⟨⟨gaap_ns, "ConceptB"⟩, .instant (738156 * usecPerDay), "E1", [], some "USD",
   some 0, ⟨-7, 0⟩, false, "-7", none⟩

/-- A non-negative rule table with a `DQC.US.0015.1` and a `DQC.US.0015.2`
row. -/
def rows_C3 : List (String × String × String) :=
  [("DQC.US.0015.1", "us-gaap", "ConceptA"), ("DQC.US.0015.2", "us-gaap", "ConceptB")]

/-- A document violating both non-negative rows. -/
def inst_C3 : Instance :=
  ⟨[some gaap_ns, some dei_ns], [concept_A_ex, concept_B_ex], false,
   [fact_A_neg, fact_B_neg]⟩

/-- The `dei:LegalEntityAxis` dimension concept (no default member needed
for the scenarios). -/
def concept_LEA_ex : Concept := ⟨⟨dei_ns, "LegalEntityAxis"⟩, false, false, none⟩

/-- The `dei:DocumentFiscalPeriodFocus` concept. -/
def concept_DFPF_ex : Concept := ⟨⟨dei_ns, "DocumentFiscalPeriodFocus"⟩, false, false, none⟩

/-- The `dei:DocumentType` concept. -/
def concept_DocType_ex : Concept := ⟨⟨dei_ns, "DocumentType"⟩, false, false, none⟩

/-- The `dei:AmendmentFlag` concept (one of the ten covered DEI concepts). -/
def concept_AF_ex : Concept := ⟨⟨dei_ns, "AmendmentFlag"⟩, false, false, none⟩

/-- The fiscal-period-focus fact `Q1` over a 90-day duration context. -/
def fact_DFPF : Fact :=
  ⟨⟨dei_ns, "DocumentFiscalPeriodFocus"⟩, .startEnd 0 (90 * usecPerDay), "E1", [],
   none, none, ⟨0, 0⟩, false, "Q1", none⟩

/-- A `DocumentType = 10-Q` fact over a 90-day duration context. -/
def fact_DocType10Q : Fact :=
  ⟨⟨dei_ns, "DocumentType"⟩, .startEnd 0 (90 * usecPerDay), "E1", [],
   none, none, ⟨0, 0⟩, false, "10-Q", none⟩

/-- An `AmendmentFlag` fact over a duration context of the given length in
days. -/
def fact_AF (days : Int) : Fact :=
  ⟨⟨dei_ns, "AmendmentFlag"⟩, .startEnd 0 (days * usecPerDay), "E1", [],
   none, none, ⟨0, 0⟩, false, "true", none⟩

/-- The DEI concepts resolvable in the C5 documents. -/
def dei_concepts_C5 : List Concept :=
  [concept_LEA_ex, concept_DFPF_ex, concept_DocType_ex, concept_AF_ex]

/-- A document with one `DocumentType = 10-Q` fact, a `Q1` period focus and
an `AmendmentFlag` fact whose duration is `days` days. -/
def inst_C5 (days : Int) : Instance :=
  ⟨[some dei_ns], dei_concepts_C5, false, [fact_DocType10Q, fact_DFPF, fact_AF days]⟩

/-- The same document with the `DocumentType` fact missing entirely. -/
def inst_C5_nodoc : Instance :=
  ⟨[some dei_ns], dei_concepts_C5, false, [fact_DFPF, fact_AF 45]⟩

/-- A namespace map binding only `dei`. -/
def ns_dei : List (String × String) := [("dei", dei_ns)]

/-- The duration table configuring `Q1` with the allowed range [80, 100]. -/
def durations_Q1 : List (String × Int × Int) := [("Q1", 80, 100)]

/-- The C5 document whose single `DocumentType` fact reads `10-KT` (a
transition filing). -/
def inst_C5_10KT : Instance :=
  ⟨[some dei_ns], dei_concepts_C5, false,
   [{ fact_DocType10Q with normalized_value := "10-KT" }, fact_DFPF, fact_AF 45]⟩

/-- The member-exclusion table excluding facts dimensionalized by
`ExcludedMember`. -/
def mx_C6 : List MXRule := [MXRule.equalsName "Member" "ExcludedMember"]

/-- A one-row non-negative table listing `ConceptA` under
`DQC.US.0015.1`. -/
def rows_C6 : List (String × String × String) :=
  [("DQC.US.0015.1", "us-gaap", "ConceptA")]

/-- The `ConceptA = -5` fact dimensionalized with the excluded member. -/
def fact_A_neg_dim : Fact :=
  ⟨⟨gaap_ns, "ConceptA"⟩, .instant (738156 * usecPerDay), "E1",
   [(⟨gaap_ns, "SomeAxis"⟩, ⟨gaap_ns, "ExcludedMember"⟩)], some "USD",
   some 0, ⟨-5, 0⟩, false, "-5", none⟩

/-- A document containing only the undimensioned `-5` fact. -/
def inst_C6a : Instance :=
  ⟨[some gaap_ns, some dei_ns], [concept_A_ex], false, [fact_A_neg]⟩

/-- A document containing only the excluded-member `-5` fact. -/
def inst_C6b : Instance :=
  ⟨[some gaap_ns, some dei_ns], [concept_A_ex], false, [fact_A_neg_dim]⟩

/-- A document whose only taxonomy is `us-gaap` but which contains an
equality violation (`Assets = 100`, `LiabilitiesAndStockholdersEquity = 97`)
that rule 0004 would report if it ran. -/
def inst_C9 : Instance :=
  ⟨[some gaap_ns], [concept_Assets_ex, concept_LSE_ex], false,
   [fact_Assets_100, fact_LSE 97]⟩

/-- An arbitrary concrete table bundle. -/
def tables_ex : Tables := ⟨[("Q1", 80, 100)], [], rows_C3, []⟩

/-- A fact with value 532,500,000 at decimals −6 (the XBRL specification's
half-to-even example). -/
def fact_round_a : Fact :=
  ⟨⟨gaap_ns, "Assets"⟩, .instant 0, "E1", [], some "USD", some (-6),
   ⟨532500000, 0⟩, false, "532500000", none⟩

/-- A fact with value 532,000,000 at infinite precision. -/
def fact_round_b : Fact :=
  ⟨⟨gaap_ns, "Assets"⟩, .instant 0, "E1", [], some "USD", none,
   ⟨532000000, 0⟩, false, "532000000", none⟩

/-- A forever-period fact. -/
def fact_forever : Fact :=
  ⟨⟨dei_ns, "DocumentType"⟩, .forever, "E1", [], none, none, ⟨0, 0⟩, false, "10-Q", none⟩

/-! ## C1 — the DQC.US.0004.16 equality scenario -/

/-- C1 counterexample.  The claim asserts that `Assets = 100` against
`LiabilitiesAndStockholdersEquity = 99` (same context, both decimals 0)
produces exactly one diagnostic.  The code produces none: at the least
accurate precision 0 the rule tolerates `|100 - 99| = 1 <= 2 * 10 ^ 0`
(`equal_within_tolerance`'s two-units-at-scale tolerance), so the pair
compares equal and no violation is reported.  The second conjunct is the
claim's (correct) zero-diagnostic half. -/
theorem claim_C1_counterexample :
    dqc_0004 (inst_C1 99) [] ns_gaap = [] ∧
    dqc_0004 (inst_C1 100) [] ns_gaap = [] := by decide

/-- C1 amended: with `LiabilitiesAndStockholdersEquity = 99` or `= 100` the
equality rule produces zero diagnostics (a difference of 1 is within the
tolerance `2 * 10 ^ 0`); a difference exceeding the tolerance, e.g.
`= 97`, produces exactly one diagnostic referencing both facts. -/
theorem claim_C1_amended :
    dqc_0004 (inst_C1 97) [] ns_gaap
      = [⟨"DQC.US.0004.16", [fact_Assets_100, fact_LSE 97]⟩]
  ∧ dqc_0004 (inst_C1 99) [] ns_gaap = []
  ∧ dqc_0004 (inst_C1 100) [] ns_gaap = [] := by decide

/-! ## C4 — unknown placeholder properties -/

/-- C4: the claim (and the spec) require that a placeholder property not in
the resolvable set of its argument's type fails the diagnostic's
construction for **every** argument type.  The code does raise for unknown
Fact properties (second conjunct), but the Concept branch of `create_error`
has no failing fallback: an unknown property of a Concept-typed argument
falls through every branch and the placeholder is silently dropped, so the
build succeeds with the placeholder's information lost (first conjunct). -/
theorem claim_C4_behavior :
    create_error [.lit "Label: ", .placeholder ["concept1", "foo"]]
        [("concept1", ErrArg.conceptArg concept_Assets_ex)]
      = .ok [.text "Label: "]
  ∧ create_error [.lit "Label: ", .placeholder ["fact1", "foo"]]
        [("fact1", ErrArg.factArg fact_Assets_100)]
      = .error "Unknown fact property foo" := ⟨rfl, rfl⟩

/-! ## C3 — suppression matching -/

/-- C3 counterexample.  The claim asserts that the suppression set matches
a violation's rule code *also* by the code with its trailing numeric
test-suffix stripped.  Both `DQC.US.0015.1` and `DQC.US.0015.2` strip to
`DQC.US.0015`, so under the claim the suppression set
`{"DQC.US.0015"}` would silence both violations; the code checks only
exact membership (`rule_id in suppress_errors`) and reports both.  (The
suffix-stripped code is used solely as a message-template fallback key.) -/
theorem claim_C3_counterexample :
    dqc_0015 rows_C3 [] inst_C3 ["DQC.US.0015"] ns_gaap
      = [⟨"DQC.US.0015.1", [fact_A_neg]⟩, ⟨"DQC.US.0015.2", [fact_B_neg]⟩] := by decide

/-- C3 amended: a violation whose rule code is a member of the suppression
set (exact-code matching only) produces no diagnostic, and any other
violation produces its diagnostic; in particular, with suppression set
`{"DQC.US.0015.1"}`, the `DQC.US.0015.1` violation is not reported while
the `DQC.US.0015.2` violation still is. -/
theorem claim_C3_amended :
    (∀ suppress_errors rule_id facts, rule_id ∈ suppress_errors →
        report_error suppress_errors rule_id facts = none)
  ∧ (∀ suppress_errors rule_id facts, rule_id ∉ suppress_errors →
        report_error suppress_errors rule_id facts = some ⟨rule_id, facts⟩)
  ∧ dqc_0015 rows_C3 [] inst_C3 ["DQC.US.0015.1"] ns_gaap
      = [⟨"DQC.US.0015.2", [fact_B_neg]⟩] := by
  refine ⟨?_, ?_, by decide⟩
  · intro s r fs h; simp [report_error, h]
  · intro s r fs h; simp [report_error, h]

/-- C3 witness: the two universally quantified suppression clauses at the
claim's concrete suppression set. -/
theorem claim_C3_witness :
    report_error ["DQC.US.0015.1"] "DQC.US.0015.1" [fact_A_neg] = none
  ∧ report_error ["DQC.US.0015.1"] "DQC.US.0015.2" [fact_B_neg]
      = some ⟨"DQC.US.0015.2", [fact_B_neg]⟩ :=
  ⟨claim_C3_amended.1 _ _ _ (by decide), claim_C3_amended.2.1 _ _ _ (by decide)⟩

/-! ## C5 — the DEI/block-tag duration-bounds rule -/

/-- C5 counterexample.  The claim says rule 0006 is skipped *exactly* when
the document type value ends in `"T"` / `"T/A"` or when more than one
document-type fact exists.  This document has **zero** `DocumentType`
facts — so by the claim the rule runs, and its 45-day `AmendmentFlag` fact
(focus `Q1`, allowed range [80, 100]) would have to produce a diagnostic —
yet the code skips the whole rule (its guard is `len(facts) != 1`, which
also fires on zero facts) and emits nothing. -/
theorem claim_C5_counterexample :
    dqc_0006 durations_Q1 inst_C5_nodoc [] ns_dei = [] := by decide

/-- Any `DQC.US.0006.14` diagnostic of a `_dqc_0006` scan referencing
`fact1` and focus fact `pf` (whose normalized value is configured with
`[lo, hi]`) can only have been emitted with `fact1`'s duration outside
`[lo, hi]`. -/
theorem _dqc_0006_mem_imp (durations : List (String × Int × Int))
    (suppress : List String) (dim : Option Concept)
    (pffle : List (Option QName × Fact)) (facts : List Fact)
    (fact1 pf : Fact) (lo hi : Int)
    (hdur : dict_get durations pf.normalized_value = some (lo, hi))
    (h : Diagnostic.mk "DQC.US.0006.14" [fact1, pf] ∈
      _dqc_0006 durations suppress dim pffle facts) :
    ¬ (lo ≤ period_duration fact1 ∧ period_duration fact1 ≤ hi) := by
  unfold _dqc_0006 at h
  rw [List.mem_filterMap] at h
  obtain ⟨f2, hf2, hemit⟩ := h
  rcases hpf2 : _dqc_0006_period_focus dim pffle f2 with - | pf2 <;>
    rw [hpf2] at hemit <;> dsimp only at hemit
  · exact absurd hemit (by simp)
  · rcases hdur2 : dict_get durations pf2.normalized_value with - | dur2 <;>
      rw [hdur2] at hemit <;> dsimp only at hemit
    · exact absurd hemit (by simp)
    · split at hemit
      case isTrue hcond =>
        unfold report_error at hemit
        split at hemit
        · exact absurd hemit (by simp)
        · rw [Option.some_inj] at hemit
          have hf2f : f2 = fact1 ∧ pf2 = pf := by
            have := congrArg Diagnostic.facts hemit
            simpa using this
          obtain ⟨h1, h2⟩ := hf2f
          subst h1
          subst h2
          rw [hdur] at hdur2
          obtain rfl : dur2 = (lo, hi) := (Option.some_inj.mp hdur2).symm
          intro hrange
          simp at hcond
          omega
      case isFalse => exact absurd hemit (by simp)

/-- Conversely, a scanned fact whose resolved fiscal-period-focus is
configured with `[lo, hi]` and whose duration falls outside that range
yields the `DQC.US.0006.14` diagnostic (when unsuppressed). -/
theorem _dqc_0006_mem_intro (durations : List (String × Int × Int))
    (suppress : List String) (dim : Option Concept)
    (pffle : List (Option QName × Fact)) (facts : List Fact)
    (fact1 pf : Fact) (lo hi : Int)
    (hf : fact1 ∈ facts)
    (hpf : _dqc_0006_period_focus dim pffle fact1 = some pf)
    (hdur : dict_get durations pf.normalized_value = some (lo, hi))
    (hout : ¬ (lo ≤ period_duration fact1 ∧ period_duration fact1 ≤ hi))
    (hsup : "DQC.US.0006.14" ∉ suppress) :
    Diagnostic.mk "DQC.US.0006.14" [fact1, pf] ∈
      _dqc_0006 durations suppress dim pffle facts := by
  unfold _dqc_0006
  rw [List.mem_filterMap]
  refine ⟨fact1, hf, ?_⟩
  rw [hpf]
  dsimp only
  rw [hdur]
  dsimp only
  rw [if_pos (by simp; omega)]
  simp [report_error, hsup]

/-- C5 amended: the rule is skipped exactly when the number of
document-type facts differs from one or when the single document type
value ends in `"T"` or `"T/A"`; otherwise, for every covered fact (a fact
of one of the ten fixed DEI concepts, or a text-block fact) whose resolved
fiscal-period-focus has a configured `[min, max]` day range, a diagnostic
is produced if and only if the fact's period duration in days falls
outside that range (in particular, 45 days against `Q1 -> [80, 100]`
yields exactly one diagnostic; 90 days yields none). -/
theorem claim_C5_amended :
    (∀ durations inst suppress ns,
        (facts_of_concept inst (resolve_concept inst (dict_get ns "dei") "DocumentType")).length ≠ 1 →
        dqc_0006 durations inst suppress ns = [])
  ∧ (∀ durations inst suppress ns f,
        facts_of_concept inst (resolve_concept inst (dict_get ns "dei") "DocumentType") = [f] →
        (str_ends_with f.normalized_value "T" || str_ends_with f.normalized_value "T/A") = true →
        dqc_0006 durations inst suppress ns = [])
  ∧ (∀ durations inst suppress ns fact_DocumentType fact1 pf lo hi,
        facts_of_concept inst (resolve_concept inst (dict_get ns "dei") "DocumentType")
          = [fact_DocumentType] →
        (str_ends_with fact_DocumentType.normalized_value "T" ||
         str_ends_with fact_DocumentType.normalized_value "T/A") = false →
        ((∃ name ∈ dqc_0006_fact_names, ∃ concept,
            resolve_concept inst (dict_get ns "dei") name = some concept ∧
            fact1 ∈ facts_of_concept inst (some concept)) ∨
         fact1 ∈ textblock_facts inst) →
        _dqc_0006_period_focus (resolve_concept inst (dict_get ns "dei") "LegalEntityAxis")
          (dqc_0006_period_focus_map inst ns) fact1 = some pf →
        dict_get durations pf.normalized_value = some (lo, hi) →
        "DQC.US.0006.14" ∉ suppress →
        (Diagnostic.mk "DQC.US.0006.14" [fact1, pf] ∈ dqc_0006 durations inst suppress ns ↔
         ¬ (lo ≤ period_duration fact1 ∧ period_duration fact1 ≤ hi)))
  ∧ dqc_0006 durations_Q1 (inst_C5 45) [] ns_dei
      = [⟨"DQC.US.0006.14", [fact_AF 45, fact_DFPF]⟩]
  ∧ dqc_0006 durations_Q1 (inst_C5 90) [] ns_dei = [] := by
  refine ⟨?_, ?_, ?_, by decide, by decide⟩
  · intro durations inst suppress ns h
    rcases hl : facts_of_concept inst (resolve_concept inst (dict_get ns "dei") "DocumentType") with
      - | ⟨f, - | ⟨g, t⟩⟩
    · unfold dqc_0006; rw [hl]
    · exact absurd (by rw [hl]; rfl : (facts_of_concept inst
        (resolve_concept inst (dict_get ns "dei") "DocumentType")).length = 1) h
    · unfold dqc_0006; rw [hl]
  · intro durations inst suppress ns f hfacts hends
    unfold dqc_0006
    rw [hfacts]
    simp [hends]
  · intro durations inst suppress ns fdt fact1 pf lo hi hdt hends hcov hpf hdur hsup
    have hbody : dqc_0006 durations inst suppress ns =
        dqc_0006_covered durations inst suppress ns := by
      unfold dqc_0006
      rw [hdt]
      simp [hends]
    rw [hbody]
    constructor
    · intro h
      unfold dqc_0006_covered at h
      rcases List.mem_append.mp h with h1 | h2
      · rw [List.mem_flatten] at h1
        obtain ⟨l, hl, hmem⟩ := h1
        rw [List.mem_map] at hl
        obtain ⟨nm, hnm, rfl⟩ := hl
        rcases hres : resolve_concept inst (dict_get ns "dei") nm with - | c <;>
          rw [hres] at hmem
        · exact absurd hmem (by simp)
        · exact _dqc_0006_mem_imp _ _ _ _ _ fact1 pf lo hi hdur hmem
      · exact _dqc_0006_mem_imp _ _ _ _ _ fact1 pf lo hi hdur h2
    · intro hout
      unfold dqc_0006_covered
      rcases hcov with ⟨nm, hnm, c, hres, hfc⟩ | htb
      · refine List.mem_append.mpr (Or.inl ?_)
        rw [List.mem_flatten]
        refine ⟨_, List.mem_map.mpr ⟨nm, hnm, rfl⟩, ?_⟩
        dsimp only
        rw [hres]
        exact _dqc_0006_mem_intro _ _ _ _ _ fact1 pf lo hi hfc hpf hdur hout hsup
      · exact List.mem_append.mpr (Or.inr
          (_dqc_0006_mem_intro _ _ _ _ _ fact1 pf lo hi htb hpf hdur hout hsup))

/-- C5 witness: the skip clauses applied to concrete documents (the
zero-document-type document and a `10-KT` transition filing), and the
per-covered-fact clause applied to the 45-day and 90-day scenarios. -/
theorem claim_C5_witness :
    dqc_0006 durations_Q1 inst_C5_nodoc [] ns_dei = []
  ∧ dqc_0006 durations_Q1 inst_C5_10KT [] ns_dei = []
  ∧ Diagnostic.mk "DQC.US.0006.14" [fact_AF 45, fact_DFPF] ∈
      dqc_0006 durations_Q1 (inst_C5 45) [] ns_dei
  ∧ Diagnostic.mk "DQC.US.0006.14" [fact_AF 90, fact_DFPF] ∉
      dqc_0006 durations_Q1 (inst_C5 90) [] ns_dei :=
  ⟨claim_C5_amended.1 durations_Q1 inst_C5_nodoc [] ns_dei (by decide),
   claim_C5_amended.2.1 durations_Q1 inst_C5_10KT [] ns_dei
     { fact_DocType10Q with normalized_value := "10-KT" } (by decide) (by decide),
   (claim_C5_amended.2.2.1 durations_Q1 (inst_C5 45) [] ns_dei fact_DocType10Q
      (fact_AF 45) fact_DFPF 80 100 (by decide) (by decide)
      (Or.inl ⟨"AmendmentFlag", by decide, concept_AF_ex, by decide, by decide⟩)
      (by decide) (by decide) (by decide)).mpr (by decide),
   fun h => absurd
     ((claim_C5_amended.2.2.1 durations_Q1 (inst_C5 90) [] ns_dei fact_DocType10Q
        (fact_AF 90) fact_DFPF 80 100 (by decide) (by decide)
        (Or.inl ⟨"AmendmentFlag", by decide, concept_AF_ex, by decide, by decide⟩)
        (by decide) (by decide) (by decide)).mp h)
     (by decide)⟩

/-! ## C6 — the non-negative rule and member exclusions -/

/-- Any diagnostic of a 0015 row that references fact `f` can only have
been emitted with `f`'s member-exclusion check failing. -/
theorem dqc_0015_row_mem_imp (mx : List MXRule) (inst : Instance)
    (suppress : List String) (ns : List (String × String)) (r p n rule_id : String)
    (f : Fact) (h : Diagnostic.mk rule_id [f] ∈ dqc_0015_row mx inst suppress ns r p n) :
    _dqc_0015_member_exclusions_check mx f = false := by
  unfold dqc_0015_row at h
  rcases hres2 : resolve_concept inst (dict_get ns p) n with - | c2 <;> rw [hres2] at h
  · simp at h
  · rw [List.mem_filterMap] at h
    obtain ⟨f2, hf2, hemit⟩ := h
    split at hemit
    case isTrue hcond =>
      unfold report_error at hemit
      split at hemit
      · exact absurd hemit (by simp)
      · rw [Option.some_inj] at hemit
        have hf2f : f2 = f := by
          have := congrArg Diagnostic.facts hemit
          simpa using this
        rw [hf2f] at hcond
        simp at hcond
        exact hcond.2
    case isFalse => exact absurd hemit (by simp)

/-- Conversely, a negative non-nil fact of the row's resolved concept whose
member-exclusion check fails yields the row's diagnostic. -/
theorem dqc_0015_row_mem_intro (mx : List MXRule) (inst : Instance)
    (suppress : List String) (ns : List (String × String)) (rule_id pfx name : String)
    (c : Concept) (f : Fact)
    (hres : resolve_concept inst (dict_get ns pfx) name = some c)
    (hf : f ∈ inst.facts) (hc : f.concept = c.qname) (hnil : f.xsi_nil = false)
    (hneg : Dec.lt f.numeric_value ⟨0, 0⟩ = true) (hsup : rule_id ∉ suppress)
    (hcheck : _dqc_0015_member_exclusions_check mx f = false) :
    Diagnostic.mk rule_id [f] ∈ dqc_0015_row mx inst suppress ns rule_id pfx name := by
  unfold dqc_0015_row
  rw [hres, List.mem_filterMap]
  refine ⟨f, ?_, ?_⟩
  · rw [List.mem_filter]
    exact ⟨hf, by simp [hc, hnil]⟩
  · rw [if_pos (by simp [hneg, hcheck])]
    simp [report_error, hsup]

/-- C6: the member-exclusion check fails exactly when no dimension aspect
value of the fact satisfies any exclusion expression tree (first clause);
and for every concept listed in the non-negative rule table, a non-nil
fact of that concept with a negative numeric value produces the rule's
diagnostic if and only if its member-exclusion check fails (second
clause). -/
theorem claim_C6 :
    (∀ (member_exclusions : List MXRule) (f : Fact),
        _dqc_0015_member_exclusions_check member_exclusions f = false ↔
        ∀ a ∈ f.dims, ∀ r ∈ member_exclusions,
          _dqc_0015_member_exclusions_test r a = false)
  ∧ (∀ member_exclusions rows inst suppress ns rule_id pfx name c f,
        (rule_id, pfx, name) ∈ rows →
        resolve_concept inst (dict_get ns pfx) name = some c →
        f ∈ inst.facts → f.concept = c.qname → f.xsi_nil = false →
        Dec.lt f.numeric_value ⟨0, 0⟩ = true →
        rule_id ∉ suppress →
        (Diagnostic.mk rule_id [f] ∈ dqc_0015 rows member_exclusions inst suppress ns ↔
         _dqc_0015_member_exclusions_check member_exclusions f = false)) := by
  constructor
  · intro mx f
    simp [_dqc_0015_member_exclusions_check, List.any_eq_false]
  · intro mx rows inst suppress ns rule_id pfx name c f hrow hres hf hc hnil hneg hsup
    constructor
    · intro h
      simp only [dqc_0015, List.mem_flatten, List.mem_map] at h
      obtain ⟨l, ⟨row, hrowmem, rfl⟩, hmem⟩ := h
      exact dqc_0015_row_mem_imp mx inst suppress ns row.1 row.2.1 row.2.2 rule_id f hmem
    · intro hcheck
      simp only [dqc_0015, List.mem_flatten, List.mem_map]
      exact ⟨_, ⟨(rule_id, pfx, name), hrow, rfl⟩,
        dqc_0015_row_mem_intro mx inst suppress ns rule_id pfx name c f
          hres hf hc hnil hneg hsup hcheck⟩

/-- C6 witness: the `-5` fact with no matching member exclusion produces
the diagnostic; the same fact dimensionalized with the excluded member
produces none. -/
theorem claim_C6_witness :
    Diagnostic.mk "DQC.US.0015.1" [fact_A_neg] ∈ dqc_0015 rows_C6 mx_C6 inst_C6a [] ns_gaap
  ∧ Diagnostic.mk "DQC.US.0015.1" [fact_A_neg_dim] ∉
      dqc_0015 rows_C6 mx_C6 inst_C6b [] ns_gaap := by
  constructor
  · exact (claim_C6.2 mx_C6 rows_C6 inst_C6a [] ns_gaap "DQC.US.0015.1" "us-gaap"
      "ConceptA" concept_A_ex fact_A_neg (by decide) (by decide) (by decide) (by decide)
      (by decide) (by decide) (by decide)).mpr (by decide)
  · intro h
    have hchk := (claim_C6.2 mx_C6 rows_C6 inst_C6b [] ns_gaap "DQC.US.0015.1" "us-gaap"
      "ConceptA" concept_A_ex fact_A_neg_dim (by decide) (by decide) (by decide) (by decide)
      (by decide) (by decide) (by decide)).mp h
    exact absurd hchk (by decide)

/-! ## C9 — no dei taxonomy, no diagnostics -/

/-- Updating a dictionary under a different key does not change a lookup. -/
theorem dict_get_upd_ne {κ α : Type} [DecidableEq κ] (l : List (κ × α)) (k k' : κ)
    (v : α) (h : k' ≠ k) : dict_get (dict_upd l k' v) k = dict_get l k := by
  simp [dict_get, dict_upd, List.find?_cons, h]

/-- Folding a taxonomy URI over pattern entries none of which both carry
the key `"dei"` and match the URI leaves the `"dei"` lookup unchanged. -/
theorem fold_entries_no_dei (uri : String) (entries : List (String × (String → Bool)))
    (h : ∀ pr ∈ entries, pr.1 = "dei" → pr.2 uri = false) :
    ∀ acc, dict_get acc "dei" = none →
      dict_get (entries.foldl
        (fun acc2 pr => if pr.2 uri then dict_upd acc2 pr.1 uri else acc2) acc) "dei" = none := by
  induction entries with
  | nil => intro acc hacc; simpa using hacc
  | cons e es ih =>
    intro acc hacc
    rw [List.foldl_cons]
    refine ih (fun pr hpr => h pr (List.mem_cons_of_mem _ hpr)) _ ?_
    by_cases hm : e.2 uri = true
    · rw [if_pos hm]
      have hne : e.1 ≠ "dei" := by
        intro hcontra
        rw [h e (List.mem_cons_self _ _) hcontra] at hm
        exact absurd hm (by simp)
      rw [dict_get_upd_ne _ _ _ _ hne]
      exact hacc
    · rw [if_neg hm]
      exact hacc

/-- When no loaded taxonomy's target namespace matches the `dei` pattern,
`standard_namespaces` binds no `dei` prefix. -/
theorem standard_namespaces_no_dei (tns : List (Option String))
    (h : ∀ t ∈ tns, (t.map re_dei).getD false = false) :
    dict_get (standard_namespaces tns) "dei" = none := by
  have main : ∀ acc, dict_get acc "dei" = none →
      dict_get (tns.foldl
        (fun acc t =>
          match t with
          | none => acc
          | some target_namespace =>
            re_namespaces.foldl
              (fun acc2 pr =>
                if pr.2 target_namespace then dict_upd acc2 pr.1 target_namespace else acc2)
              acc) acc) "dei" = none := by
    induction tns with
    | nil => intro acc hacc; simpa using hacc
    | cons t ts ih =>
      intro acc hacc
      rw [List.foldl_cons]
      refine ih (fun x hx => h x (List.mem_cons_of_mem _ hx)) _ ?_
      match t with
      | none => exact hacc
      | some uri =>
        have huri : re_dei uri = false := by
          have := h (some uri) (List.mem_cons_self _ _)
          simpa using this
        refine fold_entries_no_dei uri re_namespaces ?_ acc hacc
        intro pr hpr hname
        simp only [re_namespaces, List.mem_cons, List.not_mem_nil, or_false] at hpr
        rcases hpr with rfl | rfl | rfl | rfl | rfl | rfl | rfl | rfl | rfl <;>
          first
          | (exact absurd hname (by decide))
          | exact huri
  exact main [] rfl

/-- C9: when no loaded taxonomy's target namespace matches the `dei`
pattern, the `validate` entry point emits zero diagnostics — every rule
family is skipped, including the equality, ordered-pair and non-negative
families that resolve their concepts from `us-gaap` only. -/
theorem claim_C9 (tables : Tables) (inst : Instance) (params : List (String × String))
    (h : ∀ t ∈ inst.taxonomy_namespaces, (t.map re_dei).getD false = false) :
    validate tables (some inst) params = [] := by
  show (if (dict_get (standard_namespaces inst.taxonomy_namespaces) "dei").isSome then
          run_rules tables inst ((parse_suppress_errors params).map String.trim)
            (standard_namespaces inst.taxonomy_namespaces)
        else []) = []
  rw [standard_namespaces_no_dei inst.taxonomy_namespaces h]
  rfl

/-- C9 witness: on the dei-less but violating document, `validate` emits
nothing (while the equality family alone, handed a `us-gaap` binding
directly, would report). -/
theorem claim_C9_witness : validate tables_ex (some inst_C9) [] = [] :=
  claim_C9 tables_ex inst_C9 [] (by decide)

/-! ## C2 — decimal comparison: exact arithmetic against the rationals -/

theorem ipow10_pos (n : Nat) : 0 < ipow10 n := by
  induction n with
  | zero => decide
  | succ k ih => rw [ipow10]; omega

theorem ipow10_cast (n : Nat) : ((ipow10 n : ℤ) : ℚ) = (10 : ℚ) ^ n := by
  induction n with
  | zero => simp [ipow10]
  | succ k ih => rw [ipow10]; push_cast; rw [ih]; ring

theorem zpow10_pos (e : Int) : (0 : ℚ) < (10 : ℚ) ^ e := zpow_pos (by norm_num) e

/-- Rewriting a mantissa at exponent `e` down to a smaller exponent `k`
preserves the denoted rational. -/
theorem aligned_cast (m e k : Int) (h : k ≤ e) :
    (m : ℚ) * ((ipow10 (e - k).toNat : ℤ) : ℚ) * (10 : ℚ) ^ k = (m : ℚ) * (10 : ℚ) ^ e := by
  rw [ipow10_cast, ← zpow_natCast (10 : ℚ) (e - k).toNat,
    Int.toNat_of_nonneg (by omega : (0 : ℤ) ≤ e - k), mul_assoc,
    ← zpow_add₀ (by norm_num : (10 : ℚ) ≠ 0), sub_add_cancel]

theorem Dec.toRat_mk (m e : Int) : (Dec.mk m e).toRat = (m : ℚ) * (10 : ℚ) ^ e := rfl

theorem Dec.le_iff (a b : Dec) : Dec.le a b = true ↔ a.toRat ≤ b.toRat := by
  have ha : a.toRat = ((a.m * ipow10 (a.e - min a.e b.e).toNat : ℤ) : ℚ) *
      (10 : ℚ) ^ (min a.e b.e) := by
    rw [Dec.toRat]; push_cast; exact (aligned_cast _ _ _ (min_le_left a.e b.e)).symm
  have hb : b.toRat = ((b.m * ipow10 (b.e - min a.e b.e).toNat : ℤ) : ℚ) *
      (10 : ℚ) ^ (min a.e b.e) := by
    rw [Dec.toRat]; push_cast; exact (aligned_cast _ _ _ (min_le_right a.e b.e)).symm
  simp only [Dec.le, Dec.align, decide_eq_true_eq]
  rw [ha, hb, mul_le_mul_right (zpow10_pos (min a.e b.e))]
  exact Int.cast_le.symm

theorem Dec.lt_iff (a b : Dec) : Dec.lt a b = true ↔ a.toRat < b.toRat := by
  have ha : a.toRat = ((a.m * ipow10 (a.e - min a.e b.e).toNat : ℤ) : ℚ) *
      (10 : ℚ) ^ (min a.e b.e) := by
    rw [Dec.toRat]; push_cast; exact (aligned_cast _ _ _ (min_le_left a.e b.e)).symm
  have hb : b.toRat = ((b.m * ipow10 (b.e - min a.e b.e).toNat : ℤ) : ℚ) *
      (10 : ℚ) ^ (min a.e b.e) := by
    rw [Dec.toRat]; push_cast; exact (aligned_cast _ _ _ (min_le_right a.e b.e)).symm
  simp only [Dec.lt, Dec.align, decide_eq_true_eq]
  rw [ha, hb, mul_lt_mul_right (zpow10_pos (min a.e b.e))]
  exact Int.cast_lt.symm

theorem Dec.toRat_sub (a b : Dec) : (Dec.sub a b).toRat = a.toRat - b.toRat := by
  simp only [Dec.sub, Dec.align, Dec.toRat]
  push_cast
  rw [sub_mul, aligned_cast _ _ _ (min_le_left a.e b.e),
    aligned_cast _ _ _ (min_le_right a.e b.e)]

theorem Dec.toRat_add (a b : Dec) : (Dec.add a b).toRat = a.toRat + b.toRat := by
  simp only [Dec.add, Dec.align, Dec.toRat]
  push_cast
  rw [add_mul, aligned_cast _ _ _ (min_le_left a.e b.e),
    aligned_cast _ _ _ (min_le_right a.e b.e)]

theorem Dec.toRat_absD (a : Dec) : (Dec.absD a).toRat = |a.toRat| := by
  simp only [Dec.absD, Dec.toRat]
  rw [abs_mul, abs_of_pos (zpow10_pos a.e)]
  push_cast
  rfl

theorem Dec.toRat_scaleb (d : Int) (a : Dec) :
    (Dec.scaleb d a).toRat = a.toRat * (10 : ℚ) ^ d := by
  simp only [Dec.scaleb, Dec.toRat]
  rw [zpow_add₀ (by norm_num : (10 : ℚ) ≠ 0), mul_assoc]

/-- Round-half-to-even to an integer: the result differs from the value by
at most one half, and by exactly one half only at an even integer. -/
theorem quantize_char (a : Dec) :
    |a.toRat - (Dec.quantizeHalfEven1 a : ℚ)| ≤ 1 / 2 ∧
    (|a.toRat - (Dec.quantizeHalfEven1 a : ℚ)| = 1 / 2 → Dec.quantizeHalfEven1 a % 2 = 0) := by
  unfold Dec.quantizeHalfEven1
  by_cases he : 0 ≤ a.e
  · rw [if_pos he]
    have hval : a.toRat = ((a.m * ipow10 a.e.toNat : ℤ) : ℚ) := by
      rw [Dec.toRat]
      push_cast
      have := aligned_cast a.m a.e 0 he
      simpa using this.symm
    constructor
    · rw [hval, sub_self, abs_zero]; norm_num
    · rw [hval, sub_self, abs_zero]; intro htie; norm_num at htie
  · rw [if_neg he]
    have hp : 0 < ipow10 (-a.e).toNat := ipow10_pos _
    set p := ipow10 (-a.e).toNat with hp_def
    set q := a.m / p with hq_def
    set r := a.m % p with hr_def
    have hr0 : 0 ≤ r := Int.emod_nonneg a.m (ne_of_gt hp)
    have hrp : r < p := Int.emod_lt_of_pos a.m hp
    have hmid : p * q + r = a.m := Int.ediv_add_emod a.m p
    have hPpos : (0 : ℚ) < (p : ℚ) := by exact_mod_cast hp
    have hPne : (p : ℚ) ≠ 0 := ne_of_gt hPpos
    have h10 : ((p : ℤ) : ℚ) = (10 : ℚ) ^ (-a.e) := by
      rw [hp_def, ipow10_cast, ← zpow_natCast (10 : ℚ),
        Int.toNat_of_nonneg (by omega : (0 : ℤ) ≤ -a.e)]
    have hval : a.toRat = (a.m : ℚ) / (p : ℚ) := by
      rw [Dec.toRat, eq_div_iff hPne, h10, mul_assoc,
        ← zpow_add₀ (by norm_num : (10 : ℚ) ≠ 0)]
      simp
    have hmidQ : (p : ℚ) * (q : ℚ) + (r : ℚ) = (a.m : ℚ) := by exact_mod_cast hmid
    have hdiff : a.toRat - (q : ℚ) = (r : ℚ) / (p : ℚ) := by
      rw [hval, eq_div_iff hPne, sub_mul, div_mul_cancel₀ _ hPne, ← hmidQ]
      ring
    have hfrac0 : (0 : ℚ) ≤ (r : ℚ) / (p : ℚ) :=
      div_nonneg (by exact_mod_cast hr0) (le_of_lt hPpos)
    have hfrac1 : (r : ℚ) / (p : ℚ) < 1 := (div_lt_one hPpos).mpr (by exact_mod_cast hrp)
    by_cases h1 : 2 * r < p
    · rw [if_pos h1]
      have h1Q : 2 * (r : ℚ) < (p : ℚ) := by exact_mod_cast h1
      have hfhalf : (r : ℚ) / (p : ℚ) < 1 / 2 := by
        rw [div_lt_div_iff₀ hPpos (by norm_num : (0 : ℚ) < 2)]
        linarith
      have habs : |a.toRat - (q : ℚ)| = (r : ℚ) / (p : ℚ) := by
        rw [hdiff, abs_of_nonneg hfrac0]
      constructor
      · rw [habs]; linarith
      · intro htie; rw [habs] at htie; linarith
    · by_cases h2 : p < 2 * r
      · rw [if_neg h1, if_pos h2]
        have h2Q : (p : ℚ) < 2 * (r : ℚ) := by exact_mod_cast h2
        have hfhalf : 1 / 2 < (r : ℚ) / (p : ℚ) := by
          rw [div_lt_div_iff₀ (by norm_num : (0 : ℚ) < 2) hPpos]
          linarith
        have hdiff2 : a.toRat - ((q + 1 : ℤ) : ℚ) = (r : ℚ) / (p : ℚ) - 1 := by
          push_cast
          linarith [hdiff]
        have habs : |a.toRat - ((q + 1 : ℤ) : ℚ)| = 1 - (r : ℚ) / (p : ℚ) := by
          rw [hdiff2, abs_of_neg (by linarith)]
          ring
        constructor
        · rw [habs]; linarith
        · intro htie; rw [habs] at htie; linarith
      · rw [if_neg h1, if_neg h2]
        have h3 : 2 * r = p := by omega
        have h3Q : 2 * (r : ℚ) = (p : ℚ) := by exact_mod_cast h3
        have hfhalf : (r : ℚ) / (p : ℚ) = 1 / 2 := by
          rw [div_eq_div_iff hPne (by norm_num : (2 : ℚ) ≠ 0)]
          linarith
        by_cases h4 : q % 2 = 0
        · rw [if_pos h4]
          have habs : |a.toRat - (q : ℚ)| = 1 / 2 := by
            rw [hdiff, abs_of_nonneg hfrac0, hfhalf]
          exact ⟨by rw [habs], fun _ => h4⟩
        · rw [if_neg h4]
          have hdiff2 : a.toRat - ((q + 1 : ℤ) : ℚ) = (r : ℚ) / (p : ℚ) - 1 := by
            push_cast
            linarith [hdiff]
          have habs : |a.toRat - ((q + 1 : ℤ) : ℚ)| = 1 / 2 := by
            rw [hdiff2, hfhalf, abs_of_neg (by norm_num)]
            norm_num
          refine ⟨by rw [habs], fun _ => ?_⟩
          omega

/-- `round_to_precision d` produces an integer multiple of `10 ^ (-d)`
within half a unit-in-the-last-place of the value, breaking exact-half ties
towards the even multiple. -/
theorem round_to_precision_char (d : Int) (v : Dec) :
    ∃ m : ℤ, (round_to_precision d v).toRat = (m : ℚ) * (10 : ℚ) ^ (-d)
      ∧ |v.toRat - (round_to_precision d v).toRat| ≤ (10 : ℚ) ^ (-d) / 2
      ∧ (|v.toRat - (round_to_precision d v).toRat| = (10 : ℚ) ^ (-d) / 2 → m % 2 = 0) := by
  refine ⟨Dec.quantizeHalfEven1 (Dec.scaleb d v), ?_, ?_, ?_⟩
  case _ =>
    rw [round_to_precision, Dec.toRat_scaleb, Dec.toRat_mk]
    norm_num
  all_goals {
    have hfirst : (round_to_precision d v).toRat =
        ((Dec.quantizeHalfEven1 (Dec.scaleb d v) : ℤ) : ℚ) * (10 : ℚ) ^ (-d) := by
      rw [round_to_precision, Dec.toRat_scaleb, Dec.toRat_mk]
      norm_num
    have hv : v.toRat = (Dec.scaleb d v).toRat * (10 : ℚ) ^ (-d) := by
      rw [Dec.toRat_scaleb, mul_assoc, ← zpow_add₀ (by norm_num : (10 : ℚ) ≠ 0)]
      simp
    have hdiff : v.toRat - (round_to_precision d v).toRat =
        ((Dec.scaleb d v).toRat - ((Dec.quantizeHalfEven1 (Dec.scaleb d v) : ℤ) : ℚ)) *
          (10 : ℚ) ^ (-d) := by
      rw [hv, hfirst]; ring
    have habs : |v.toRat - (round_to_precision d v).toRat| =
        |(Dec.scaleb d v).toRat - ((Dec.quantizeHalfEven1 (Dec.scaleb d v) : ℤ) : ℚ)| *
          (10 : ℚ) ^ (-d) := by
      rw [hdiff, abs_mul, abs_of_pos (zpow10_pos (-d))]
    first
    | (rw [habs]
       calc |(Dec.scaleb d v).toRat - ((Dec.quantizeHalfEven1 (Dec.scaleb d v) : ℤ) : ℚ)| *
            (10 : ℚ) ^ (-d)
           ≤ (1 / 2) * (10 : ℚ) ^ (-d) := by
             exact mul_le_mul_of_nonneg_right (quantize_char (Dec.scaleb d v)).1
               (le_of_lt (zpow10_pos (-d)))
         _ = (10 : ℚ) ^ (-d) / 2 := by ring)
    | (intro htie
       rw [habs] at htie
       have h12 : (10 : ℚ) ^ (-d) / 2 = (1 / 2) * (10 : ℚ) ^ (-d) := by ring
       rw [h12] at htie
       have hinner : |(Dec.scaleb d v).toRat -
           ((Dec.quantizeHalfEven1 (Dec.scaleb d v) : ℤ) : ℚ)| = 1 / 2 :=
         mul_right_cancel₀ (ne_of_gt (zpow10_pos (-d))) htie
       exact (quantize_char (Dec.scaleb d v)).2 hinner)
  }

/-- C2: `decimal_comparison` compares raw values exactly when both facts
declare infinite precision (`min` of the decimals is infinite iff both
are); otherwise it hands `cmp` both values rounded to the least accurate
precision `d`, where rounding to precision `d` is round-half-to-even onto
the multiples of `10 ^ (-d)`; and `equal_within_tolerance` accepts a
difference of exactly `2 * 10 ^ (-d)` but rejects any larger difference. -/
theorem claim_C2 :
    (∀ a b : Option Int, minDec a b = none ↔ a = none ∧ b = none)
  ∧ (∀ (fact1 fact2 : Fact) cmp, minDec fact1.decimals fact2.decimals = none →
      decimal_comparison fact1 fact2 cmp = cmp fact1.numeric_value fact2.numeric_value none)
  ∧ (∀ (fact1 fact2 : Fact) cmp d, minDec fact1.decimals fact2.decimals = some d →
      decimal_comparison fact1 fact2 cmp =
        cmp (round_to_precision d fact1.numeric_value)
            (round_to_precision d fact2.numeric_value) (some d))
  ∧ (∀ (d : Int) (v : Dec), ∃ m : ℤ,
        (round_to_precision d v).toRat = (m : ℚ) * (10 : ℚ) ^ (-d)
      ∧ |v.toRat - (round_to_precision d v).toRat| ≤ (10 : ℚ) ^ (-d) / 2
      ∧ (|v.toRat - (round_to_precision d v).toRat| = (10 : ℚ) ^ (-d) / 2 → m % 2 = 0))
  ∧ (∀ (v : Dec) (d : Int),
        equal_within_tolerance v (Dec.add v ⟨2, -d⟩) (some d) = true)
  ∧ (∀ (v : Dec) (d : Int) (ε : Dec), 0 < ε.toRat →
        equal_within_tolerance v (Dec.add (Dec.add v ⟨2, -d⟩) ε) (some d) = false) := by
  refine ⟨?_, ?_, ?_, round_to_precision_char, ?_, ?_⟩
  · intro a b; cases a <;> cases b <;> simp [minDec]
  · intro fact1 fact2 cmp h; simp [decimal_comparison, h]
  · intro fact1 fact2 cmp d h; simp [decimal_comparison, h]
  · intro v d
    have h2d : (Dec.mk 2 (-d)).toRat = 2 * (10 : ℚ) ^ (-d) := by
      rw [Dec.toRat_mk]; norm_num
    have h20 : (Dec.mk 2 0).toRat = 2 := by
      rw [Dec.toRat_mk]; norm_num
    simp only [equal_within_tolerance]
    rw [Dec.le_iff, Dec.toRat_absD, Dec.toRat_sub, Dec.toRat_add, Dec.toRat_scaleb,
      h2d, h20]
    have hpos := zpow10_pos (-d)
    rw [show v.toRat - (v.toRat + 2 * (10 : ℚ) ^ (-d)) = -(2 * (10 : ℚ) ^ (-d)) by ring,
      abs_neg, abs_of_pos (by linarith)]
  · intro v d ε hε
    have h2d : (Dec.mk 2 (-d)).toRat = 2 * (10 : ℚ) ^ (-d) := by
      rw [Dec.toRat_mk]; norm_num
    have h20 : (Dec.mk 2 0).toRat = 2 := by
      rw [Dec.toRat_mk]; norm_num
    simp only [equal_within_tolerance]
    rw [Bool.eq_false_iff]
    intro hle
    rw [Dec.le_iff, Dec.toRat_absD, Dec.toRat_sub, Dec.toRat_add, Dec.toRat_add,
      Dec.toRat_scaleb, h2d, h20] at hle
    have hpos := zpow10_pos (-d)
    rw [show v.toRat - (v.toRat + 2 * (10 : ℚ) ^ (-d) + ε.toRat)
          = -(2 * (10 : ℚ) ^ (-d) + ε.toRat) by ring,
      abs_neg, abs_of_pos (by linarith)] at hle
    linarith

/-- C2 witness: the structural clauses of `claim_C2` instantiated at
concrete facts and tolerances. -/
theorem claim_C2_witness :
    decimal_comparison fact_round_b fact_round_b equal_within_tolerance =
      equal_within_tolerance fact_round_b.numeric_value fact_round_b.numeric_value none
  ∧ decimal_comparison fact_round_a fact_round_b equal_within_tolerance =
      equal_within_tolerance (round_to_precision (-6) fact_round_a.numeric_value)
        (round_to_precision (-6) fact_round_b.numeric_value) (some (-6))
  ∧ equal_within_tolerance ⟨5, 0⟩ (Dec.add ⟨5, 0⟩ ⟨2, 0⟩) (some 0) = true
  ∧ equal_within_tolerance ⟨5, 0⟩ (Dec.add (Dec.add ⟨5, 0⟩ ⟨2, 0⟩) ⟨1, 0⟩) (some 0) = false :=
  ⟨claim_C2.2.1 fact_round_b fact_round_b equal_within_tolerance rfl,
   claim_C2.2.2.1 fact_round_a fact_round_b equal_within_tolerance (-6) rfl,
   claim_C2.2.2.2.2.1 ⟨5, 0⟩ 0,
   claim_C2.2.2.2.2.2 ⟨5, 0⟩ 0 ⟨1, 0⟩ (by norm_num [Dec.toRat_mk])⟩

/-! ## C10 — determinism and suppression-set invariance -/

/-- `report_error` consults the suppression set only through membership, so
membership-equivalent suppression sets (e.g. the same Python `set`
enumerated in different orders) give the same reporting function. -/
theorem report_error_mem_congr (s1 s2 : List String) (h : ∀ c, c ∈ s1 ↔ c ∈ s2) :
    report_error s1 = report_error s2 := by
  funext rule_id facts
  unfold report_error
  by_cases hc : rule_id ∈ s1
  · rw [if_pos hc, if_pos ((h rule_id).mp hc)]
  · rw [if_neg hc, if_neg (fun hx => hc ((h rule_id).mpr hx))]

/-- All seven rule families consult the suppression set exclusively through
`report_error`, so the whole run is invariant under membership-equivalent
suppression sets. -/
theorem run_rules_suppress_congr (tables : Tables) (inst : Instance)
    (s1 s2 : List String) (ns : List (String × String)) (h : ∀ c, c ∈ s1 ↔ c ∈ s2) :
    run_rules tables inst s1 ns = run_rules tables inst s2 ns := by
  have hre := report_error_mem_congr s1 s2 h
  simp only [run_rules, dqc_0004, dqc_0004_16, _dqc_0004, dqc_0005, dqc_0005_17,
    dqc_0005_48, dqc_0005_49, _dqc_0005, dqc_0006, dqc_0006_covered, _dqc_0006,
    dqc_0009, dqc_0015, dqc_0015_row, dqc_0033, dqc_0036]
  rw [hre]

/-- C10: validation is a pure function of the document, the rule tables and
the configuration (running it twice gives identical output), and its output
depends on the suppression configuration only through the membership of the
parsed suppression set — there is no hidden randomness or order-sensitive
iteration of the suppression set. -/
theorem claim_C10 :
    (∀ tables inst params, validate tables inst params = validate tables inst params)
  ∧ (∀ tables inst s1 s2 ns, (∀ c, c ∈ s1 ↔ c ∈ s2) →
        run_rules tables inst s1 ns = run_rules tables inst s2 ns)
  ∧ (∀ tables inst p1 p2,
        (∀ c, c ∈ (parse_suppress_errors p1).map String.trim ↔
              c ∈ (parse_suppress_errors p2).map String.trim) →
        validate tables inst p1 = validate tables inst p2) := by
  refine ⟨fun _ _ _ => rfl,
    fun tables inst s1 s2 ns h => run_rules_suppress_congr tables inst s1 s2 ns h, ?_⟩
  intro tables inst p1 p2 h
  cases inst with
  | none => rfl
  | some i =>
    simp only [validate]
    split
    · exact run_rules_suppress_congr tables i _ _ _ h
    · rfl

/-- C10 witness: two enumeration orders of the same suppression set give
the same run over a concrete document. -/
theorem claim_C10_witness :
    run_rules tables_ex (inst_C1 97) ["DQC.US.0015.1", "DQC.US.0004.16"] ns_gaap =
    run_rules tables_ex (inst_C1 97) ["DQC.US.0004.16", "DQC.US.0015.1"] ns_gaap :=
  claim_C10.2.1 tables_ex (inst_C1 97) _ _ ns_gaap
    (fun c => by simp [List.mem_cons, or_comm])

/-! ## C7 — period end and duration sentinels -/

/-- C7: `period_end` maps a duration period to its end date, an instant to
its instant date and a forever period to the maximal `datetime` sentinel;
`period_duration` maps a duration to `end - start` in days, an instant to 0
and a forever period to the `sys.maxsize` sentinel.  Consequently a
forever-period fact never satisfies an on-or-before comparison against any
earlier-than-sentinel date and its duration never falls inside a
`[lo, hi]` day range with `hi` below the sentinel. -/
theorem claim_C7 :
    (∀ f s e, f.period = Period.startEnd s e →
        period_end f = e ∧ period_duration f = (e - s).fdiv usecPerDay)
  ∧ (∀ f t, f.period = Period.instant t →
        period_end f = t ∧ period_duration f = 0)
  ∧ (∀ f, f.period = Period.forever →
        period_end f = datetime_max ∧ period_duration f = sys_maxsize)
  ∧ (∀ f d, f.period = Period.forever → d < datetime_max → ¬ period_end f ≤ d)
  ∧ (∀ f lo hi, f.period = Period.forever → hi < sys_maxsize →
        ¬ (lo ≤ period_duration f ∧ period_duration f ≤ hi)) := by
  refine ⟨?_, ?_, ?_, ?_, ?_⟩
  · intro f s e h; simp [period_end, period_duration, h]
  · intro f t h; simp [period_end, period_duration, h]
  · intro f h; simp [period_end, period_duration, h]
  · intro f d h hd hle
    simp only [period_end, h] at hle
    exact absurd hle (not_le.mpr hd)
  · intro f lo hi h hhi hrange
    simp only [period_duration, h] at hrange
    exact absurd hrange.2 (not_le.mpr hhi)

/-- C7 witness: the sentinel consequences evaluated on a concrete
forever-period fact and a concrete real date / day range. -/
theorem claim_C7_witness :
    ¬ period_end fact_forever ≤ 738156 * usecPerDay
  ∧ ¬ (80 ≤ period_duration fact_forever ∧ period_duration fact_forever ≤ 100) :=
  ⟨claim_C7.2.2.2.1 fact_forever (738156 * usecPerDay) rfl (by decide),
   claim_C7.2.2.2.2 fact_forever 80 100 rfl (by decide)⟩

/-! ## C8 — end-of-day date formatting -/

/-- C8: `format_date` renders a full timestamp whenever the value carries a
nonzero time-of-day; at exact midnight it renders a date-only string, first
subtracting one day when `is_end` is set (undoing XBRL's next-midnight end
convention); in particular 2021-01-01T00:00:00 with `is_end` renders as
`2020-12-31`. -/
theorem claim_C8 :
    (∀ v b, v.time_is_min = false → format_date v b = render_datetime v)
  ∧ (∀ v, v.time_is_min = true → format_date v true = render_date (sub_one_day v))
  ∧ (∀ v, v.time_is_min = true → format_date v false = render_date v)
  ∧ format_date ⟨2021, 1, 1, 0, 0, 0, 0⟩ true = "2020-12-31" := by
  refine ⟨?_, ?_, ?_, by decide⟩
  · intro v b h; simp [format_date, h]
  · intro v h; simp [format_date, h]
  · intro v h; simp [format_date, h]

/-- C8 witness: the universally quantified clauses evaluated at concrete
datetimes (a 13:30:05 timestamp, and midnights with and without `is_end`). -/
theorem claim_C8_witness :
    format_date ⟨2021, 3, 1, 13, 30, 5, 0⟩ true = render_datetime ⟨2021, 3, 1, 13, 30, 5, 0⟩
  ∧ format_date ⟨2021, 3, 1, 0, 0, 0, 0⟩ true = render_date (sub_one_day ⟨2021, 3, 1, 0, 0, 0, 0⟩)
  ∧ format_date ⟨2021, 3, 1, 0, 0, 0, 0⟩ false = render_date ⟨2021, 3, 1, 0, 0, 0, 0⟩ :=
  ⟨claim_C8.1 ⟨2021, 3, 1, 13, 30, 5, 0⟩ true (by decide),
   claim_C8.2.1 ⟨2021, 3, 1, 0, 0, 0, 0⟩ (by decide),
   claim_C8.2.2.1 ⟨2021, 3, 1, 0, 0, 0, 0⟩ (by decide)⟩

end Dqc
